import Mathlib

/-!
Verification of the mine-closure costing calculation engine
(`src/domain/calcEngine.ts` and its domain types).

The engine is a pure function pipeline over validated numeric inputs.  We
embed it shallowly: JavaScript numbers become rationals (`ℚ`), phase
durations become naturals (the external validator forces them to be
non-negative integers), records become structures, and the imperative
bucket-filling loops of the cashflow distributor become explicit
summations.  All definitions mirror `calcEngine.ts` clause by clause.
-/

-- Let definitional unfolding see through rational arithmetic, so that
-- concrete runs of the engine can be checked by `decide`.
set_option allowUnsafeReducibility true in
attribute [semireducible] Rat.mul Rat.add Rat.inv Rat.sub Rat.neg Rat.ofScientific

set_option maxRecDepth 10000

namespace MineClosure

/-- The eight closure phases, in declaration order (`ClosurePhase` enum). -/
inductive ClosurePhase where
  | PlanningApprovals
  | DecommissioningDemolition
  | EarthworksLandform
  | TailingsWRDRehabilitation
  | WaterManagement
  | RevegetationEcosystem
  | MonitoringMaintenance
  | RelinquishmentPostClosure
  deriving DecidableEq

/-- `CLOSURE_PHASES`: all closure phases in order. -/
def CLOSURE_PHASES : List ClosurePhase :=
  [ .PlanningApprovals, .DecommissioningDemolition, .EarthworksLandform,
    .TailingsWRDRehabilitation, .WaterManagement, .RevegetationEcosystem,
    .MonitoringMaintenance, .RelinquishmentPostClosure ]

/-- The 18 cost categories (`CostCategory` enum). -/
inductive CostCategory where
  | Mobilisation
  | SiteEstablishment
  | Demolition
  | Earthworks
  | TSFClosure
  | WRDRehabilitation
  | WaterTreatmentCapex
  | WaterTreatmentOpex
  | Revegetation
  | ErosionControls
  | RoadRehabilitation
  | HazardousMaterials
  | Monitoring
  | CommunityHeritage
  | Contingency
  | RiskUplift
  | OwnersCosts
  | ContractorMargin
  deriving DecidableEq

/-- `MonitoringIntensity = 'low' | 'medium' | 'high'`. -/
inductive MonitoringIntensity where
  | low
  | medium
  | high
  deriving DecidableEq

/-- `DiscountRateMode = 'real' | 'nominal'`. -/
inductive DiscountRateMode where
  | real
  | nominal
  deriving DecidableEq

/-- `PhaseDurations`: an (integer) year count per phase.  The validation
schema (`validation.ts`) constrains every entry to a non-negative integer,
so we use `ℕ`. -/
structure PhaseDurations where
  planningApprovals : ℕ
  decommissioningDemolition : ℕ
  earthworksLandform : ℕ
  tailingsWRDRehabilitation : ℕ
  waterManagement : ℕ
  revegetationEcosystem : ℕ
  monitoringMaintenance : ℕ
  relinquishmentPostClosure : ℕ
  deriving DecidableEq

/-- Indexing `phaseDurations[phase]`. -/
def PhaseDurations.get (d : PhaseDurations) : ClosurePhase → ℕ
  | .PlanningApprovals => d.planningApprovals
  | .DecommissioningDemolition => d.decommissioningDemolition
  | .EarthworksLandform => d.earthworksLandform
  | .TailingsWRDRehabilitation => d.tailingsWRDRehabilitation
  | .WaterManagement => d.waterManagement
  | .RevegetationEcosystem => d.revegetationEcosystem
  | .MonitoringMaintenance => d.monitoringMaintenance
  | .RelinquishmentPostClosure => d.relinquishmentPostClosure

/-- `DirectWorksQuantities`: primary physical inputs. -/
structure DirectWorksQuantities where
  disturbedAreaHa : ℚ
  tsfAreaHa : ℚ
  tsfCoverThicknessM : ℚ
  wrdFootprintHa : ℚ
  wrdReshapingDepthM : ℚ
  earthworksVolumeM3Override : Option ℚ
  topsoilThicknessM : ℚ
  recontouringAreaHa : ℚ
  roadLengthKm : ℚ
  numberOfBuildings : ℚ
  waterTreatmentFlowMLPerDay : ℚ
  waterTreatmentDurationYears : ℚ
  waterTreatmentIntensityFactor : ℚ
  monitoringDurationYears : ℚ
  monitoringIntensity : MonitoringIntensity
  hazardousMaterialsEnabled : Bool
  hazardousMaterialsAreaHa : ℚ
  communityHeritageEnabled : Bool

/-- `UnitRates`: cost-per-unit constants and adjustment factors. -/
structure UnitRates where
  earthworksPerM3 : ℚ
  cappingBasePerM2 : ℚ
  cappingThicknessFactor : ℚ
  topsoilPerM3 : ℚ
  revegetationPerHa : ℚ
  revegetationComplexityFactor : ℚ
  demolitionPerBuilding : ℚ
  roadRehabPerKm : ℚ
  waterTreatmentCapex : ℚ
  waterTreatmentOpexPerML : ℚ
  monitoringPerYearLow : ℚ
  monitoringPerYearMedium : ℚ
  monitoringPerYearHigh : ℚ
  hazardousMaterialsPerHa : ℚ
  communityHeritageLumpSum : ℚ
  bulkingFactor : ℚ
  erosionControlsPerHa : ℚ
  mobilisationLumpSum : ℚ

/-- `IndirectCostRates`: the four indirect percentages. -/
structure IndirectCostRates where
  siteEstablishmentPercent : ℚ
  contractorMarginPercent : ℚ
  contingencyPercent : ℚ
  ownersCostsPercent : ℚ

/-- `RiskFactors`: five independent 0-100 scores. -/
structure RiskFactors where
  contaminationUncertainty : ℚ
  geotechUncertainty : ℚ
  waterQualityUncertainty : ℚ
  regulatoryUncertainty : ℚ
  logisticsComplexity : ℚ

/-- `FinancialParams`. -/
structure FinancialParams where
  closureStartYear : ℤ
  escalationRatePercent : ℚ
  discountRatePercent : ℚ
  discountRateMode : DiscountRateMode

/-- `InputState`: the complete validated input record. -/
structure InputState where
  quantities : DirectWorksQuantities
  unitRates : UnitRates
  indirectRates : IndirectCostRates
  riskFactors : RiskFactors
  financialParams : FinancialParams
  phaseDurations : PhaseDurations
  scenarioName : String

/-- `DerivedQuantities`. -/
structure DerivedQuantities where
  tsfAreaM2 : ℚ
  wrdAreaM2 : ℚ
  tsfCappingVolumeM3 : ℚ
  wrdEarthworksVolumeM3 : ℚ
  totalEarthworksVolumeM3 : ℚ
  topsoilVolumeM3 : ℚ
  disturbedAreaM2 : ℚ
  recontouringAreaM2 : ℚ
  totalWaterTreatmentML : ℚ
  riskScore : ℚ
  riskUpliftPercent : ℚ

/-- `LineItemCost`. -/
structure LineItemCost where
  category : CostCategory
  description : String
  quantity : ℚ
  unit : String
  unitRate : ℚ
  subtotal : ℚ
  phase : ClosurePhase

/-- `AnnualCashflow`.  The per-phase breakdown record becomes a function. -/
structure AnnualCashflow where
  year : ℤ
  nominalCost : ℚ
  escalatedCost : ℚ
  discountedCost : ℚ
  cumulativeNominal : ℚ
  cumulativeDiscounted : ℚ
  phaseBreakdown : ClosurePhase → ℚ

/-- `SensitivityResult`. -/
structure SensitivityResult where
  driverName : String
  driverKey : String
  baseValue : ℚ
  unit : String
  lowValue : ℚ
  highValue : ℚ
  lowTotalCost : ℚ
  highTotalCost : ℚ
  lowNPV : ℚ
  highNPV : ℚ
  deltaCost : ℚ
  deltaNPV : ℚ
  deriving DecidableEq

/-- `PhaseCostSummary`. -/
structure PhaseCostSummary where
  phase : ClosurePhase
  totalCost : ℚ
  percentOfTotal : ℚ
  deriving DecidableEq

/-- `CategoryCostSummary`. -/
structure CategoryCostSummary where
  category : CostCategory
  totalCost : ℚ
  percentOfTotal : ℚ
  deriving DecidableEq

/-- `Results`: the root output aggregate. -/
structure Results where
  derivedQuantities : DerivedQuantities
  lineItems : List LineItemCost
  directWorksCost : ℚ
  indirectCosts : ℚ
  totalNominalCost : ℚ
  totalDiscountedCost : ℚ
  peakAnnualCashflow : ℚ
  peakCashflowYear : ℤ
  annualCashflows : List AnnualCashflow
  phaseBreakdown : List PhaseCostSummary
  categoryBreakdown : List CategoryCostSummary
  sensitivityResults : List SensitivityResult
  monitoringCostShare : ℚ
  totalDurationYears : ℕ

-- ===========================================================================
-- Unit conversions and risk scoring
-- ===========================================================================

/-- `haToM2(ha) = ha * 10000`. -/
def haToM2 (ha : ℚ) : ℚ := ha * 10000

/-- `m2ToHa(m2) = m2 / 10000`. -/
def m2ToHa (m2 : ℚ) : ℚ := m2 / 10000

/-- JavaScript `Math.round`: round half toward positive infinity. -/
def jsRound (x : ℚ) : ℤ := ⌊x + 1 / 2⌋

/-- `calculateRiskScore`: fixed-weight composite score, rounded to one
decimal (`Math.round(score * 10) / 10`). -/
def calculateRiskScore (factors : RiskFactors) : ℚ :=
  let score :=
    factors.contaminationUncertainty * (25 / 100) +
    factors.geotechUncertainty * (20 / 100) +
    factors.waterQualityUncertainty * (25 / 100) +
    factors.regulatoryUncertainty * (15 / 100) +
    factors.logisticsComplexity * (15 / 100)
  (jsRound (score * 10) : ℚ) / 10

/-- `riskScoreToUplift`: 5-segment piecewise-linear map from risk score to
uplift percentage. -/
def riskScoreToUplift (riskScore : ℚ) : ℚ :=
  if riskScore ≤ 20 then
    riskScore / 20 * 5
  else if riskScore ≤ 40 then
    5 + (riskScore - 20) / 20 * 5
  else if riskScore ≤ 60 then
    10 + (riskScore - 40) / 20 * 10
  else if riskScore ≤ 80 then
    20 + (riskScore - 60) / 20 * 15
  else
    35 + (riskScore - 80) / 20 * 15

/-- `calculateDerivedQuantities`. -/
def calculateDerivedQuantities (inputs : InputState) : DerivedQuantities :=
  let quantities := inputs.quantities
  let unitRates := inputs.unitRates
  let tsfAreaM2 := haToM2 quantities.tsfAreaHa
  let wrdAreaM2 := haToM2 quantities.wrdFootprintHa
  let disturbedAreaM2 := haToM2 quantities.disturbedAreaHa
  let recontouringAreaM2 := haToM2 quantities.recontouringAreaHa
  let tsfCappingVolumeM3 := tsfAreaM2 * quantities.tsfCoverThicknessM
  let wrdEarthworksVolumeM3 :=
    wrdAreaM2 * quantities.wrdReshapingDepthM * unitRates.bulkingFactor
  let totalEarthworksVolumeM3 :=
    match quantities.earthworksVolumeM3Override with
    | some v => v
    | none => tsfCappingVolumeM3 + wrdEarthworksVolumeM3
  let topsoilVolumeM3 := disturbedAreaM2 * quantities.topsoilThicknessM
  let totalWaterTreatmentML :=
    quantities.waterTreatmentFlowMLPerDay * 365 * quantities.waterTreatmentDurationYears
  let riskScore := calculateRiskScore inputs.riskFactors
  let riskUpliftPercent := riskScoreToUplift riskScore
  { tsfAreaM2 := tsfAreaM2
    wrdAreaM2 := wrdAreaM2
    tsfCappingVolumeM3 := tsfCappingVolumeM3
    wrdEarthworksVolumeM3 := wrdEarthworksVolumeM3
    totalEarthworksVolumeM3 := totalEarthworksVolumeM3
    topsoilVolumeM3 := topsoilVolumeM3
    disturbedAreaM2 := disturbedAreaM2
    recontouringAreaM2 := recontouringAreaM2
    totalWaterTreatmentML := totalWaterTreatmentML
    riskScore := riskScore
    riskUpliftPercent := riskUpliftPercent }

-- ===========================================================================
-- Line item cost calculation
-- ===========================================================================

/-- The `{low, medium, high}` rate record passed to `getMonitoringRate`. -/
structure MonitoringRates where
  low : ℚ
  medium : ℚ
  high : ℚ

/-- `getMonitoringRate`. -/
def getMonitoringRate (intensity : MonitoringIntensity) (rates : MonitoringRates) : ℚ :=
  match intensity with
  | .low => rates.low
  | .medium => rates.medium
  | .high => rates.high

/-- `calculateDirectWorksCosts`: the conditional `items.push(...)` sequence,
rendered as a concatenation of conditional singleton lists in the same
order as the source. -/
def calculateDirectWorksCosts (inputs : InputState) (derived : DerivedQuantities) :
    List LineItemCost :=
  let quantities := inputs.quantities
  let unitRates := inputs.unitRates
  [ { category := .Mobilisation
      description := "Site mobilisation and demobilisation"
      quantity := 1
      unit := "lump sum"
      unitRate := unitRates.mobilisationLumpSum
      subtotal := unitRates.mobilisationLumpSum
      phase := .DecommissioningDemolition } ]
  ++ (if 0 < quantities.numberOfBuildings then
      [ { category := .Demolition
          description := "Building and structure demolition"
          quantity := quantities.numberOfBuildings
          unit := "buildings"
          unitRate := unitRates.demolitionPerBuilding
          subtotal := quantities.numberOfBuildings * unitRates.demolitionPerBuilding
          phase := .DecommissioningDemolition } ]
    else [])
  ++ (if 0 < derived.totalEarthworksVolumeM3 then
      [ { category := .Earthworks
          description := "General earthworks (recontouring, reshaping)"
          quantity := derived.totalEarthworksVolumeM3
          unit := "m3"
          unitRate := unitRates.earthworksPerM3
          subtotal := derived.totalEarthworksVolumeM3 * unitRates.earthworksPerM3
          phase := .EarthworksLandform } ]
    else [])
  ++ (if 0 < derived.topsoilVolumeM3 then
      [ { category := .Earthworks
          description := "Topsoil placement"
          quantity := derived.topsoilVolumeM3
          unit := "m3"
          unitRate := unitRates.topsoilPerM3
          subtotal := derived.topsoilVolumeM3 * unitRates.topsoilPerM3
          phase := .EarthworksLandform } ]
    else [])
  ++ (if 0 < quantities.tsfAreaHa then
      let cappingCostPerM2 :=
        unitRates.cappingBasePerM2 *
          (quantities.tsfCoverThicknessM * unitRates.cappingThicknessFactor)
      [ { category := .TSFClosure
          description := "TSF capping and closure"
          quantity := derived.tsfAreaM2
          unit := "m2"
          unitRate := cappingCostPerM2
          subtotal := derived.tsfAreaM2 * cappingCostPerM2
          phase := .TailingsWRDRehabilitation } ]
    else [])
  ++ (if 0 < quantities.wrdFootprintHa then
      let wrdCostPerM2 :=
        unitRates.cappingBasePerM2 *
          (quantities.wrdReshapingDepthM * unitRates.cappingThicknessFactor * (1 / 2))
      [ { category := .WRDRehabilitation
          description := "WRD reshaping and cover"
          quantity := derived.wrdAreaM2
          unit := "m2"
          unitRate := wrdCostPerM2
          subtotal := derived.wrdAreaM2 * wrdCostPerM2
          phase := .TailingsWRDRehabilitation } ]
    else [])
  ++ (if 0 < quantities.waterTreatmentDurationYears ∧
        0 < quantities.waterTreatmentFlowMLPerDay then
      let capexAdjusted :=
        unitRates.waterTreatmentCapex * quantities.waterTreatmentIntensityFactor
      let annualOpex :=
        quantities.waterTreatmentFlowMLPerDay * 365 *
          unitRates.waterTreatmentOpexPerML * quantities.waterTreatmentIntensityFactor
      [ { category := .WaterTreatmentCapex
          description := "Water treatment plant (capex)"
          quantity := 1
          unit := "plant"
          unitRate := capexAdjusted
          subtotal := capexAdjusted
          phase := .WaterManagement },
        { category := .WaterTreatmentOpex
          description := "Water treatment operations (opex)"
          quantity := quantities.waterTreatmentDurationYears
          unit := "years"
          unitRate := annualOpex
          subtotal := annualOpex * quantities.waterTreatmentDurationYears
          phase := .WaterManagement } ]
    else [])
  ++ (if 0 < quantities.disturbedAreaHa then
      let revegRate := unitRates.revegetationPerHa * unitRates.revegetationComplexityFactor
      [ { category := .Revegetation
          description := "Revegetation and ecosystem establishment"
          quantity := quantities.disturbedAreaHa
          unit := "ha"
          unitRate := revegRate
          subtotal := quantities.disturbedAreaHa * revegRate
          phase := .RevegetationEcosystem } ]
    else [])
  ++ (if 0 < quantities.disturbedAreaHa then
      [ { category := .ErosionControls
          description := "Erosion and sediment controls"
          quantity := quantities.disturbedAreaHa
          unit := "ha"
          unitRate := unitRates.erosionControlsPerHa
          subtotal := quantities.disturbedAreaHa * unitRates.erosionControlsPerHa
          phase := .EarthworksLandform } ]
    else [])
  ++ (if 0 < quantities.roadLengthKm then
      [ { category := .RoadRehabilitation
          description := "Road and access rehabilitation"
          quantity := quantities.roadLengthKm
          unit := "km"
          unitRate := unitRates.roadRehabPerKm
          subtotal := quantities.roadLengthKm * unitRates.roadRehabPerKm
          phase := .EarthworksLandform } ]
    else [])
  ++ (if quantities.hazardousMaterialsEnabled = true ∧
        0 < quantities.hazardousMaterialsAreaHa then
      [ { category := .HazardousMaterials
          description := "Hazardous materials handling and disposal"
          quantity := quantities.hazardousMaterialsAreaHa
          unit := "ha"
          unitRate := unitRates.hazardousMaterialsPerHa
          subtotal := quantities.hazardousMaterialsAreaHa * unitRates.hazardousMaterialsPerHa
          phase := .DecommissioningDemolition } ]
    else [])
  ++ [ { category := .Monitoring
         description := "Environmental monitoring"
         quantity := quantities.monitoringDurationYears
         unit := "years"
         unitRate := getMonitoringRate quantities.monitoringIntensity
           { low := unitRates.monitoringPerYearLow
             medium := unitRates.monitoringPerYearMedium
             high := unitRates.monitoringPerYearHigh }
         subtotal := quantities.monitoringDurationYears *
           getMonitoringRate quantities.monitoringIntensity
             { low := unitRates.monitoringPerYearLow
               medium := unitRates.monitoringPerYearMedium
               high := unitRates.monitoringPerYearHigh }
         phase := .MonitoringMaintenance } ]
  ++ (if quantities.communityHeritageEnabled = true then
      [ { category := .CommunityHeritage
          description := "Community and heritage management"
          quantity := 1
          unit := "lump sum"
          unitRate := unitRates.communityHeritageLumpSum
          subtotal := unitRates.communityHeritageLumpSum
          phase := .PlanningApprovals } ]
    else [])

/-- `calculateIndirectCosts`: the five dependent overhead items. -/
def calculateIndirectCosts (directWorksTotal : ℚ) (inputs : InputState)
    (derived : DerivedQuantities) : List LineItemCost :=
  let indirectRates := inputs.indirectRates
  let siteEstCost := directWorksTotal * (indirectRates.siteEstablishmentPercent / 100)
  let subtotalForMargin := directWorksTotal + siteEstCost
  let contractorMargin := subtotalForMargin * (indirectRates.contractorMarginPercent / 100)
  let subtotalForContingency := directWorksTotal + siteEstCost + contractorMargin
  let contingency := subtotalForContingency * (indirectRates.contingencyPercent / 100)
  let riskUplift := subtotalForContingency * (derived.riskUpliftPercent / 100)
  let totalBeforeOwners :=
    directWorksTotal + siteEstCost + contractorMargin + contingency + riskUplift
  let ownersCosts := totalBeforeOwners * (indirectRates.ownersCostsPercent / 100)
  [ { category := .SiteEstablishment
      description := "Site establishment, HSE, and project management"
      quantity := indirectRates.siteEstablishmentPercent
      unit := "% of direct"
      unitRate := directWorksTotal / 100
      subtotal := siteEstCost
      phase := .PlanningApprovals },
    { category := .ContractorMargin
      description := "Contractor margin"
      quantity := indirectRates.contractorMarginPercent
      unit := "% of subtotal"
      unitRate := subtotalForMargin / 100
      subtotal := contractorMargin
      phase := .DecommissioningDemolition },
    { category := .Contingency
      description := "Base contingency"
      quantity := indirectRates.contingencyPercent
      unit := "% of subtotal"
      unitRate := subtotalForContingency / 100
      subtotal := contingency
      phase := .PlanningApprovals },
    { category := .RiskUplift
      description := "Risk-based uplift"
      quantity := derived.riskUpliftPercent
      unit := "% of subtotal"
      unitRate := subtotalForContingency / 100
      subtotal := riskUplift
      phase := .PlanningApprovals },
    { category := .OwnersCosts
      description := "Owner's costs and overheads"
      quantity := indirectRates.ownersCostsPercent
      unit := "% of total"
      unitRate := totalBeforeOwners / 100
      subtotal := ownersCosts
      phase := .PlanningApprovals } ]

-- ===========================================================================
-- Scheduling and cashflow
-- ===========================================================================

/-- `calculateTotalDuration`: sequential model with parallel tracks. -/
def calculateTotalDuration (phaseDurations : PhaseDurations) : ℕ :=
  let planningYears := phaseDurations.planningApprovals
  let decommYears := phaseDurations.decommissioningDemolition
  let earthworksYears := phaseDurations.earthworksLandform
  let tsfWrdYears := phaseDurations.tailingsWRDRehabilitation
  let waterYears := phaseDurations.waterManagement
  let revegYears := phaseDurations.revegetationEcosystem
  let monitoringYears := phaseDurations.monitoringMaintenance
  let relinquishmentYears := phaseDurations.relinquishmentPostClosure
  let activeWorks := planningYears + decommYears + max earthworksYears tsfWrdYears + revegYears
  let waterMonitoring := max waterYears monitoringYears
  activeWorks + waterMonitoring + relinquishmentYears

/-- `getPhaseStartYear`: phase start offsets under the overlap model. -/
def getPhaseStartYear (phase : ClosurePhase) (durations : PhaseDurations) : ℕ :=
  match phase with
  | .PlanningApprovals => 0
  | .DecommissioningDemolition => durations.planningApprovals
  | .EarthworksLandform =>
      durations.planningApprovals + durations.decommissioningDemolition
  | .TailingsWRDRehabilitation =>
      durations.planningApprovals + durations.decommissioningDemolition
  | .WaterManagement =>
      durations.planningApprovals + durations.decommissioningDemolition
  | .RevegetationEcosystem =>
      durations.planningApprovals + durations.decommissioningDemolition +
        max durations.earthworksLandform durations.tailingsWRDRehabilitation
  | .MonitoringMaintenance =>
      durations.planningApprovals + durations.decommissioningDemolition +
        max durations.earthworksLandform durations.tailingsWRDRehabilitation +
        durations.revegetationEcosystem
  | .RelinquishmentPostClosure =>
      durations.planningApprovals + durations.decommissioningDemolition +
        max durations.earthworksLandform durations.tailingsWRDRehabilitation +
        durations.revegetationEcosystem +
        max durations.waterManagement durations.monitoringMaintenance

/-- The amount the distribution loop adds to bucket `year` for one line
item: `subtotal / duration` for each year of the item's phase window
(clipped to `year ≤ totalDuration`), or the full subtotal at the phase
start for zero-duration phases (if that bucket exists). -/
def itemYearAlloc (durations : PhaseDurations) (totalDuration : ℕ)
    (item : LineItemCost) (year : ℕ) : ℚ :=
  let phaseStart := getPhaseStartYear item.phase durations
  let phaseDuration := durations.get item.phase
  if 0 < phaseDuration then
    if phaseStart ≤ year ∧ year < phaseStart + phaseDuration ∧ year ≤ totalDuration then
      item.subtotal / (phaseDuration : ℚ)
    else 0
  else
    if year = phaseStart ∧ phaseStart ≤ totalDuration then item.subtotal else 0

/-- `yearlyPhaseBreakdown[year][phase]` after the distribution loop. -/
def phaseBreakdownAt (lineItems : List LineItemCost) (durations : PhaseDurations)
    (totalDuration : ℕ) (year : ℕ) (phase : ClosurePhase) : ℚ :=
  ((lineItems.filter (fun item => item.phase = phase)).map
    (fun item => itemYearAlloc durations totalDuration item year)).sum

/-- Per-year nominal cost: the sum of the year's phase buckets. -/
def yearNominal (lineItems : List LineItemCost) (durations : PhaseDurations)
    (totalDuration : ℕ) (year : ℕ) : ℚ :=
  (CLOSURE_PHASES.map (phaseBreakdownAt lineItems durations totalDuration year)).sum

/-- `calculateAnnualCashflows`: one entry per year `0..totalDuration`,
with escalation, discounting, and running cumulative sums. -/
def calculateAnnualCashflows (lineItems : List LineItemCost) (inputs : InputState) :
    List AnnualCashflow :=
  let financialParams := inputs.financialParams
  let phaseDurations := inputs.phaseDurations
  let totalDuration := calculateTotalDuration phaseDurations
  let escalationRate := financialParams.escalationRatePercent / 100
  let discountRate := financialParams.discountRatePercent / 100
  let effectiveDiscountRate :=
    match financialParams.discountRateMode with
    | .nominal => discountRate
    | .real => discountRate
  (List.range (totalDuration + 1)).map fun i =>
    let nominalCost := yearNominal lineItems phaseDurations totalDuration i
    let escalatedCost := nominalCost * (1 + escalationRate) ^ i
    let discountedCost := escalatedCost / (1 + effectiveDiscountRate) ^ i
    { year := financialParams.closureStartYear + (i : ℤ)
      nominalCost := nominalCost
      escalatedCost := escalatedCost
      discountedCost := discountedCost
      cumulativeNominal :=
        ((List.range (i + 1)).map
          (yearNominal lineItems phaseDurations totalDuration)).sum
      cumulativeDiscounted :=
        ((List.range (i + 1)).map fun j =>
          yearNominal lineItems phaseDurations totalDuration j *
            (1 + escalationRate) ^ j / (1 + effectiveDiscountRate) ^ j).sum
      phaseBreakdown := phaseBreakdownAt lineItems phaseDurations totalDuration i }

-- ===========================================================================
-- Breakdown summaries
-- ===========================================================================

/-- Total `subtotal` of the items assigned to one phase. -/
def phaseTotalOf (lineItems : List LineItemCost) (phase : ClosurePhase) : ℚ :=
  ((lineItems.filter (fun item => item.phase = phase)).map
    (fun item => item.subtotal)).sum

/-- `calculatePhaseBreakdown`: one summary per phase (zero-cost phases
included), with a divide-by-zero guard on the grand total. -/
def calculatePhaseBreakdown (lineItems : List LineItemCost) (totalCost : ℚ) :
    List PhaseCostSummary :=
  CLOSURE_PHASES.map fun phase =>
    { phase := phase
      totalCost := phaseTotalOf lineItems phase
      percentOfTotal :=
        if 0 < totalCost then phaseTotalOf lineItems phase / totalCost * 100 else 0 }

/-- The `categoryTotals` insertion-ordered map, as an association list. -/
def categoryTotalsList (lineItems : List LineItemCost) : List (CostCategory × ℚ) :=
  lineItems.foldl
    (fun acc item =>
      if (acc.map Prod.fst).contains item.category then
        acc.map fun p =>
          if p.1 = item.category then (p.1, p.2 + item.subtotal) else p
      else acc ++ [(item.category, item.subtotal)])
    []

/-- Insert into a list sorted descending by `key` (models the comparison
sort `(a, b) => key b - key a`). -/
def insertDescBy {α : Type} (key : α → ℚ) (x : α) : List α → List α
  | [] => [x]
  | y :: ys => if key y ≤ key x then x :: y :: ys else y :: insertDescBy key x ys

/-- Sort a list descending by `key`. -/
def sortDescBy {α : Type} (key : α → ℚ) : List α → List α
  | [] => []
  | x :: xs => insertDescBy key x (sortDescBy key xs)

/-- `calculateCategoryBreakdown`: per-category totals, zero-value categories
omitted, sorted descending by cost. -/
def calculateCategoryBreakdown (lineItems : List LineItemCost) (totalCost : ℚ) :
    List CategoryCostSummary :=
  let summaries : List CategoryCostSummary :=
    (categoryTotalsList lineItems).filterMap fun p =>
      if 0 < p.2 then
        some { category := p.1
               totalCost := p.2
               percentOfTotal := if 0 < totalCost then p.2 / totalCost * 100 else 0 }
      else none
  sortDescBy (fun s => s.totalCost) summaries

-- ===========================================================================
-- Sensitivity analysis
-- ===========================================================================

/-- `SensitivityDriver`: a named getter/setter pair into `InputState`. -/
structure SensitivityDriver where
  name : String
  key : String
  getValue : InputState → ℚ
  setValue : InputState → ℚ → InputState
  unit : String

/-- `SENSITIVITY_DRIVERS`: the eight wired drivers, in source order. -/
def SENSITIVITY_DRIVERS : List SensitivityDriver :=
  [ { name := "Disturbed Area"
      key := "disturbedArea"
      getValue := fun i => i.quantities.disturbedAreaHa
      setValue := fun i v => { i with quantities := { i.quantities with disturbedAreaHa := v } }
      unit := "ha" },
    { name := "Earthworks Rate"
      key := "earthworksRate"
      getValue := fun i => i.unitRates.earthworksPerM3
      setValue := fun i v => { i with unitRates := { i.unitRates with earthworksPerM3 := v } }
      unit := "$/m3" },
    { name := "TSF Area"
      key := "tsfArea"
      getValue := fun i => i.quantities.tsfAreaHa
      setValue := fun i v => { i with quantities := { i.quantities with tsfAreaHa := v } }
      unit := "ha" },
    { name := "TSF Cover Thickness"
      key := "tsfThickness"
      getValue := fun i => i.quantities.tsfCoverThicknessM
      setValue := fun i v =>
        { i with quantities := { i.quantities with tsfCoverThicknessM := v } }
      unit := "m" },
    { name := "Water Treatment Duration"
      key := "waterDuration"
      getValue := fun i => i.quantities.waterTreatmentDurationYears
      setValue := fun i v =>
        { i with quantities := { i.quantities with waterTreatmentDurationYears := v } }
      unit := "years" },
    { name := "Contingency %"
      key := "contingency"
      getValue := fun i => i.indirectRates.contingencyPercent
      setValue := fun i v =>
        { i with indirectRates := { i.indirectRates with contingencyPercent := v } }
      unit := "%" },
    { name := "Discount Rate"
      key := "discountRate"
      getValue := fun i => i.financialParams.discountRatePercent
      setValue := fun i v =>
        { i with financialParams := { i.financialParams with discountRatePercent := v } }
      unit := "%" },
    { name := "Revegetation Rate"
      key := "revegRate"
      getValue := fun i => i.unitRates.revegetationPerHa
      setValue := fun i v =>
        { i with unitRates := { i.unitRates with revegetationPerHa := v } }
      unit := "$/ha" } ]

/-- Result pair of `calculateTotalForSensitivity`. -/
structure SensTotals where
  total : ℚ
  npv : ℚ

/-- `calculateTotalForSensitivity`: the simplified pipeline used inside the
sensitivity analysis. -/
def calculateTotalForSensitivity (inputs : InputState) : SensTotals :=
  let derived := calculateDerivedQuantities inputs
  let directItems := calculateDirectWorksCosts inputs derived
  let directTotal := (directItems.map (fun item => item.subtotal)).sum
  let indirectItems := calculateIndirectCosts directTotal inputs derived
  let allItems := directItems ++ indirectItems
  let total := (allItems.map (fun item => item.subtotal)).sum
  let cashflows := calculateAnnualCashflows allItems inputs
  let npv := (cashflows.getLast?).elim 0 (fun cf => cf.cumulativeDiscounted)
  { total := total, npv := npv }

/-- `calculateSensitivity`: one-at-a-time perturbation of the wired drivers,
skipping zero-base drivers, sorted by descending absolute cost delta. -/
def calculateSensitivity (inputs : InputState) (variationPercent : ℚ) :
    List SensitivityResult :=
  let results := SENSITIVITY_DRIVERS.filterMap fun driver =>
    let baseValue := driver.getValue inputs
    if baseValue = 0 then none
    else
      let lowValue := baseValue * (1 - variationPercent / 100)
      let highValue := baseValue * (1 + variationPercent / 100)
      let lowInputs := driver.setValue inputs lowValue
      let highInputs := driver.setValue inputs highValue
      let lowResults := calculateTotalForSensitivity lowInputs
      let highResults := calculateTotalForSensitivity highInputs
      some
        { driverName := driver.name
          driverKey := driver.key
          baseValue := baseValue
          unit := driver.unit
          lowValue := lowValue
          highValue := highValue
          lowTotalCost := lowResults.total
          highTotalCost := highResults.total
          lowNPV := lowResults.npv
          highNPV := highResults.npv
          deltaCost := highResults.total - lowResults.total
          deltaNPV := highResults.npv - lowResults.npv }
  sortDescBy (fun r => |r.deltaCost|) results

-- ===========================================================================
-- Main calculation entry point
-- ===========================================================================

/-- `calculateClosureCosts`: the complete pipeline. -/
def calculateClosureCosts (inputs : InputState) : Results :=
  let derivedQuantities := calculateDerivedQuantities inputs
  let directItems := calculateDirectWorksCosts inputs derivedQuantities
  let directWorksCost := (directItems.map (fun item => item.subtotal)).sum
  let indirectItems := calculateIndirectCosts directWorksCost inputs derivedQuantities
  let indirectCosts := (indirectItems.map (fun item => item.subtotal)).sum
  let lineItems := directItems ++ indirectItems
  let totalNominalCost := directWorksCost + indirectCosts
  let annualCashflows := calculateAnnualCashflows lineItems inputs
  let totalDiscountedCost :=
    (annualCashflows.getLast?).elim 0 (fun cf => cf.cumulativeDiscounted)
  let peak :=
    annualCashflows.foldl
      (fun acc cf => if acc.1 < cf.nominalCost then (cf.nominalCost, cf.year) else acc)
      ((0 : ℚ), inputs.financialParams.closureStartYear)
  let monitoringCost :=
    ((lineItems.filter (fun item => item.category = .Monitoring)).map
      (fun item => item.subtotal)).sum
  { derivedQuantities := derivedQuantities
    lineItems := lineItems
    directWorksCost := directWorksCost
    indirectCosts := indirectCosts
    totalNominalCost := totalNominalCost
    totalDiscountedCost := totalDiscountedCost
    peakAnnualCashflow := peak.1
    peakCashflowYear := peak.2
    annualCashflows := annualCashflows
    phaseBreakdown := calculatePhaseBreakdown lineItems totalNominalCost
    categoryBreakdown := calculateCategoryBreakdown lineItems totalNominalCost
    sensitivityResults := calculateSensitivity inputs 10
    monitoringCostShare :=
      if 0 < totalNominalCost then monitoringCost / totalNominalCost * 100 else 0
    totalDurationYears := calculateTotalDuration inputs.phaseDurations }

-- ===========================================================================
-- The validated input domain (from `validation.ts`)
-- ===========================================================================

/-- The bounds enforced by the zod schema in `validation.ts`
(`InputStateSchema`): every numeric field non-negative and below its
declared maximum, factors within their declared windows, the integer
fields integral (denominator 1), and phase durations within their
per-phase maxima.  The engine may assume its input satisfies this. -/
structure ValidInputs (i : InputState) : Prop where
  disturbedAreaHa_lb : 0 ≤ i.quantities.disturbedAreaHa
  disturbedAreaHa_ub : i.quantities.disturbedAreaHa ≤ 100000
  tsfAreaHa_lb : 0 ≤ i.quantities.tsfAreaHa
  tsfAreaHa_ub : i.quantities.tsfAreaHa ≤ 10000
  tsfCoverThicknessM_lb : 0 ≤ i.quantities.tsfCoverThicknessM
  tsfCoverThicknessM_ub : i.quantities.tsfCoverThicknessM ≤ 5
  wrdFootprintHa_lb : 0 ≤ i.quantities.wrdFootprintHa
  wrdFootprintHa_ub : i.quantities.wrdFootprintHa ≤ 50000
  wrdReshapingDepthM_lb : 0 ≤ i.quantities.wrdReshapingDepthM
  wrdReshapingDepthM_ub : i.quantities.wrdReshapingDepthM ≤ 20
  topsoilThicknessM_lb : 0 ≤ i.quantities.topsoilThicknessM
  topsoilThicknessM_ub : i.quantities.topsoilThicknessM ≤ 2
  recontouringAreaHa_lb : 0 ≤ i.quantities.recontouringAreaHa
  recontouringAreaHa_ub : i.quantities.recontouringAreaHa ≤ 100000
  roadLengthKm_lb : 0 ≤ i.quantities.roadLengthKm
  roadLengthKm_ub : i.quantities.roadLengthKm ≤ 500
  numberOfBuildings_lb : 0 ≤ i.quantities.numberOfBuildings
  numberOfBuildings_ub : i.quantities.numberOfBuildings ≤ 500
  numberOfBuildings_int : (i.quantities.numberOfBuildings).den = 1
  waterTreatmentFlowMLPerDay_lb : 0 ≤ i.quantities.waterTreatmentFlowMLPerDay
  waterTreatmentFlowMLPerDay_ub : i.quantities.waterTreatmentFlowMLPerDay ≤ 100
  waterTreatmentDurationYears_lb : 0 ≤ i.quantities.waterTreatmentDurationYears
  waterTreatmentDurationYears_ub : i.quantities.waterTreatmentDurationYears ≤ 100
  waterTreatmentIntensityFactor_lb : 1 / 2 ≤ i.quantities.waterTreatmentIntensityFactor
  waterTreatmentIntensityFactor_ub : i.quantities.waterTreatmentIntensityFactor ≤ 3
  monitoringDurationYears_lb : 1 ≤ i.quantities.monitoringDurationYears
  monitoringDurationYears_ub : i.quantities.monitoringDurationYears ≤ 100
  monitoringDurationYears_int : (i.quantities.monitoringDurationYears).den = 1
  hazardousMaterialsAreaHa_lb : 0 ≤ i.quantities.hazardousMaterialsAreaHa
  hazardousMaterialsAreaHa_ub : i.quantities.hazardousMaterialsAreaHa ≤ 1000
  earthworksPerM3_lb : 0 ≤ i.unitRates.earthworksPerM3
  earthworksPerM3_ub : i.unitRates.earthworksPerM3 ≤ 100
  cappingBasePerM2_lb : 0 ≤ i.unitRates.cappingBasePerM2
  cappingBasePerM2_ub : i.unitRates.cappingBasePerM2 ≤ 500
  cappingThicknessFactor_lb : 1 / 2 ≤ i.unitRates.cappingThicknessFactor
  cappingThicknessFactor_ub : i.unitRates.cappingThicknessFactor ≤ 3
  topsoilPerM3_lb : 0 ≤ i.unitRates.topsoilPerM3
  topsoilPerM3_ub : i.unitRates.topsoilPerM3 ≤ 100
  revegetationPerHa_lb : 0 ≤ i.unitRates.revegetationPerHa
  revegetationPerHa_ub : i.unitRates.revegetationPerHa ≤ 100000
  revegetationComplexityFactor_lb : 1 / 2 ≤ i.unitRates.revegetationComplexityFactor
  revegetationComplexityFactor_ub : i.unitRates.revegetationComplexityFactor ≤ 3
  demolitionPerBuilding_lb : 0 ≤ i.unitRates.demolitionPerBuilding
  demolitionPerBuilding_ub : i.unitRates.demolitionPerBuilding ≤ 5000000
  roadRehabPerKm_lb : 0 ≤ i.unitRates.roadRehabPerKm
  roadRehabPerKm_ub : i.unitRates.roadRehabPerKm ≤ 1000000
  waterTreatmentCapex_lb : 0 ≤ i.unitRates.waterTreatmentCapex
  waterTreatmentCapex_ub : i.unitRates.waterTreatmentCapex ≤ 500000000
  waterTreatmentOpexPerML_lb : 0 ≤ i.unitRates.waterTreatmentOpexPerML
  waterTreatmentOpexPerML_ub : i.unitRates.waterTreatmentOpexPerML ≤ 10000
  monitoringPerYearLow_lb : 0 ≤ i.unitRates.monitoringPerYearLow
  monitoringPerYearLow_ub : i.unitRates.monitoringPerYearLow ≤ 5000000
  monitoringPerYearMedium_lb : 0 ≤ i.unitRates.monitoringPerYearMedium
  monitoringPerYearMedium_ub : i.unitRates.monitoringPerYearMedium ≤ 10000000
  monitoringPerYearHigh_lb : 0 ≤ i.unitRates.monitoringPerYearHigh
  monitoringPerYearHigh_ub : i.unitRates.monitoringPerYearHigh ≤ 20000000
  hazardousMaterialsPerHa_lb : 0 ≤ i.unitRates.hazardousMaterialsPerHa
  hazardousMaterialsPerHa_ub : i.unitRates.hazardousMaterialsPerHa ≤ 1000000
  communityHeritageLumpSum_lb : 0 ≤ i.unitRates.communityHeritageLumpSum
  communityHeritageLumpSum_ub : i.unitRates.communityHeritageLumpSum ≤ 50000000
  bulkingFactor_lb : 1 ≤ i.unitRates.bulkingFactor
  bulkingFactor_ub : i.unitRates.bulkingFactor ≤ 2
  erosionControlsPerHa_lb : 0 ≤ i.unitRates.erosionControlsPerHa
  erosionControlsPerHa_ub : i.unitRates.erosionControlsPerHa ≤ 50000
  mobilisationLumpSum_lb : 0 ≤ i.unitRates.mobilisationLumpSum
  mobilisationLumpSum_ub : i.unitRates.mobilisationLumpSum ≤ 50000000
  siteEstablishmentPercent_lb : 0 ≤ i.indirectRates.siteEstablishmentPercent
  siteEstablishmentPercent_ub : i.indirectRates.siteEstablishmentPercent ≤ 100
  contractorMarginPercent_lb : 0 ≤ i.indirectRates.contractorMarginPercent
  contractorMarginPercent_ub : i.indirectRates.contractorMarginPercent ≤ 100
  contingencyPercent_lb : 0 ≤ i.indirectRates.contingencyPercent
  contingencyPercent_ub : i.indirectRates.contingencyPercent ≤ 100
  ownersCostsPercent_lb : 0 ≤ i.indirectRates.ownersCostsPercent
  ownersCostsPercent_ub : i.indirectRates.ownersCostsPercent ≤ 100
  contaminationUncertainty_lb : 0 ≤ i.riskFactors.contaminationUncertainty
  contaminationUncertainty_ub : i.riskFactors.contaminationUncertainty ≤ 100
  geotechUncertainty_lb : 0 ≤ i.riskFactors.geotechUncertainty
  geotechUncertainty_ub : i.riskFactors.geotechUncertainty ≤ 100
  waterQualityUncertainty_lb : 0 ≤ i.riskFactors.waterQualityUncertainty
  waterQualityUncertainty_ub : i.riskFactors.waterQualityUncertainty ≤ 100
  regulatoryUncertainty_lb : 0 ≤ i.riskFactors.regulatoryUncertainty
  regulatoryUncertainty_ub : i.riskFactors.regulatoryUncertainty ≤ 100
  logisticsComplexity_lb : 0 ≤ i.riskFactors.logisticsComplexity
  logisticsComplexity_ub : i.riskFactors.logisticsComplexity ≤ 100
  escalationRatePercent_lb : 0 ≤ i.financialParams.escalationRatePercent
  escalationRatePercent_ub : i.financialParams.escalationRatePercent ≤ 20
  discountRatePercent_lb : 0 ≤ i.financialParams.discountRatePercent
  discountRatePercent_ub : i.financialParams.discountRatePercent ≤ 30
  closureStartYear_lb : 2020 ≤ i.financialParams.closureStartYear
  closureStartYear_ub : i.financialParams.closureStartYear ≤ 2100
  planningApprovals_ub : i.phaseDurations.planningApprovals ≤ 10
  decommissioningDemolition_ub : i.phaseDurations.decommissioningDemolition ≤ 10
  earthworksLandform_ub : i.phaseDurations.earthworksLandform ≤ 20
  tailingsWRDRehabilitation_ub : i.phaseDurations.tailingsWRDRehabilitation ≤ 20
  waterManagement_ub : i.phaseDurations.waterManagement ≤ 50
  revegetationEcosystem_ub : i.phaseDurations.revegetationEcosystem ≤ 20
  monitoringMaintenance_ub : i.phaseDurations.monitoringMaintenance ≤ 100
  relinquishmentPostClosure_ub : i.phaseDurations.relinquishmentPostClosure ≤ 10
  scenarioName_lb : 1 ≤ i.scenarioName.length
  scenarioName_ub : i.scenarioName.length ≤ 100

-- ===========================================================================
-- Concrete input states
-- ===========================================================================

/-- `DEFAULT_INPUT_STATE` from `defaults.ts`. -/
def defaultInputState : InputState :=
  { quantities :=
      { disturbedAreaHa := 500
        tsfAreaHa := 100
        tsfCoverThicknessM := 1 / 2
        wrdFootprintHa := 200
        wrdReshapingDepthM := 1
        earthworksVolumeM3Override := none
        topsoilThicknessM := 15 / 100
        recontouringAreaHa := 300
        roadLengthKm := 20
        numberOfBuildings := 15
        waterTreatmentFlowMLPerDay := 2
        waterTreatmentDurationYears := 10
        waterTreatmentIntensityFactor := 1
        monitoringDurationYears := 15
        monitoringIntensity := .medium
        hazardousMaterialsEnabled := false
        hazardousMaterialsAreaHa := 0
        communityHeritageEnabled := true }
    unitRates :=
      { earthworksPerM3 := 8
        cappingBasePerM2 := 25
        cappingThicknessFactor := 3 / 2
        topsoilPerM3 := 15
        revegetationPerHa := 8000
        revegetationComplexityFactor := 1
        demolitionPerBuilding := 150000
        roadRehabPerKm := 50000
        waterTreatmentCapex := 5000000
        waterTreatmentOpexPerML := 500
        monitoringPerYearLow := 200000
        monitoringPerYearMedium := 500000
        monitoringPerYearHigh := 1000000
        hazardousMaterialsPerHa := 100000
        communityHeritageLumpSum := 500000
        bulkingFactor := 6 / 5
        erosionControlsPerHa := 3000
        mobilisationLumpSum := 2000000 }
    indirectRates :=
      { siteEstablishmentPercent := 12
        contractorMarginPercent := 10
        contingencyPercent := 15
        ownersCostsPercent := 5 }
    riskFactors :=
      { contaminationUncertainty := 30
        geotechUncertainty := 25
        waterQualityUncertainty := 35
        regulatoryUncertainty := 20
        logisticsComplexity := 25 }
    financialParams :=
      { closureStartYear := 2026
        escalationRatePercent := 3
        discountRatePercent := 7
        discountRateMode := .real }
    phaseDurations :=
      { planningApprovals := 2
        decommissioningDemolition := 2
        earthworksLandform := 3
        tailingsWRDRehabilitation := 3
        waterManagement := 10
        revegetationEcosystem := 3
        monitoringMaintenance := 15
        relinquishmentPostClosure := 2 }
    scenarioName := "Default Scenario" }

/-- A deliberately tiny valid input: one 100-dollar mobilisation lump sum,
planning and decommissioning one year each, all percentages zero, high
escalation (10%) and a small positive discount rate (1%). -/
def smallInputs : InputState :=
  { quantities :=
      { disturbedAreaHa := 0
        tsfAreaHa := 0
        tsfCoverThicknessM := 0
        wrdFootprintHa := 0
        wrdReshapingDepthM := 0
        earthworksVolumeM3Override := none
        topsoilThicknessM := 0
        recontouringAreaHa := 0
        roadLengthKm := 0
        numberOfBuildings := 0
        waterTreatmentFlowMLPerDay := 0
        waterTreatmentDurationYears := 0
        waterTreatmentIntensityFactor := 1 / 2
        monitoringDurationYears := 1
        monitoringIntensity := .low
        hazardousMaterialsEnabled := false
        hazardousMaterialsAreaHa := 0
        communityHeritageEnabled := false }
    unitRates :=
      { earthworksPerM3 := 0
        cappingBasePerM2 := 0
        cappingThicknessFactor := 1 / 2
        topsoilPerM3 := 0
        revegetationPerHa := 0
        revegetationComplexityFactor := 1 / 2
        demolitionPerBuilding := 0
        roadRehabPerKm := 0
        waterTreatmentCapex := 0
        waterTreatmentOpexPerML := 0
        monitoringPerYearLow := 0
        monitoringPerYearMedium := 0
        monitoringPerYearHigh := 0
        hazardousMaterialsPerHa := 0
        communityHeritageLumpSum := 0
        bulkingFactor := 1
        erosionControlsPerHa := 0
        mobilisationLumpSum := 100 }
    indirectRates :=
      { siteEstablishmentPercent := 0
        contractorMarginPercent := 0
        contingencyPercent := 0
        ownersCostsPercent := 0 }
    riskFactors :=
      { contaminationUncertainty := 0
        geotechUncertainty := 0
        waterQualityUncertainty := 0
        regulatoryUncertainty := 0
        logisticsComplexity := 0 }
    financialParams :=
      { closureStartYear := 2026
        escalationRatePercent := 10
        discountRatePercent := 1
        discountRateMode := .real }
    phaseDurations :=
      { planningApprovals := 1
        decommissioningDemolition := 1
        earthworksLandform := 0
        tailingsWRDRehabilitation := 0
        waterManagement := 0
        revegetationEcosystem := 0
        monitoringMaintenance := 0
        relinquishmentPostClosure := 0 }
    scenarioName := "Tiny" }

/-- `smallInputs` with every unit rate zeroed (grand total 0). -/
def zeroCostInputs : InputState :=
  { smallInputs with
      unitRates := { smallInputs.unitRates with mobilisationLumpSum := 0 } }

/-- `smallInputs` with every phase duration zero: all cost falls in year 0,
where the discount factor is `(1 + r)^0 = 1`. -/
def flatInputs : InputState :=
  { smallInputs with
      financialParams :=
        { smallInputs.financialParams with
            escalationRatePercent := 0
            discountRatePercent := 10 }
      phaseDurations :=
        { planningApprovals := 0
          decommissioningDemolition := 0
          earthworksLandform := 0
          tailingsWRDRehabilitation := 0
          waterManagement := 0
          revegetationEcosystem := 0
          monitoringMaintenance := 0
          relinquishmentPostClosure := 0 } }

/-- Replace only the discount rate. -/
def setDiscountRate (i : InputState) (v : ℚ) : InputState :=
  { i with financialParams := { i.financialParams with discountRatePercent := v } }

/-- Replace only the discount-rate mode. -/
def setDiscountRateMode (i : InputState) (m : DiscountRateMode) : InputState :=
  { i with financialParams := { i.financialParams with discountRateMode := m } }

/-- A placeholder sensitivity result (used only as the default element of
list indexing in closed witness statements). -/
def emptySensitivityResult : SensitivityResult :=
  { driverName := ""
    driverKey := ""
    baseValue := 0
    unit := ""
    lowValue := 0
    highValue := 0
    lowTotalCost := 0
    highTotalCost := 0
    lowNPV := 0
    highNPV := 0
    deltaCost := 0
    deltaNPV := 0 }

-- ===========================================================================
-- Validity of the concrete inputs
-- ===========================================================================

theorem validInputs_default : ValidInputs defaultInputState := by
  constructor <;> decide

theorem validInputs_small : ValidInputs smallInputs := by
  constructor <;> decide

theorem validInputs_zeroCost : ValidInputs zeroCostInputs := by
  constructor <;> decide

theorem validInputs_flat : ValidInputs flatInputs := by
  constructor <;> decide

-- ===========================================================================
-- Cashflow conservation: helper lemmas
-- ===========================================================================

/-- Sums over `List.range` are `Finset.range` sums. -/
lemma sum_range_list (f : ℕ → ℚ) (n : ℕ) :
    ((List.range n).map f).sum = ∑ i ∈ Finset.range n, f i := rfl

/-- Every phase's allocation window fits inside the total duration. -/
lemma phase_window_le (d : PhaseDurations) (p : ClosurePhase) :
    getPhaseStartYear p d + d.get p ≤ calculateTotalDuration d := by
  cases p <;>
    simp only [getPhaseStartYear, PhaseDurations.get, calculateTotalDuration] <;>
    omega

lemma phaseBreakdownAt_nil (d : PhaseDurations) (D y : ℕ) (p : ClosurePhase) :
    phaseBreakdownAt [] d D y p = 0 := rfl

lemma phaseBreakdownAt_cons (it : LineItemCost) (items : List LineItemCost)
    (d : PhaseDurations) (D y : ℕ) (p : ClosurePhase) :
    phaseBreakdownAt (it :: items) d D y p =
      (if it.phase = p then itemYearAlloc d D it y else 0) +
        phaseBreakdownAt items d D y p := by
  simp only [phaseBreakdownAt, List.filter_cons]
  split_ifs with h <;> simp_all

lemma yearNominal_nil (d : PhaseDurations) (D y : ℕ) : yearNominal [] d D y = 0 := by
  simp [yearNominal, phaseBreakdownAt_nil, CLOSURE_PHASES]

lemma yearNominal_cons (it : LineItemCost) (items : List LineItemCost)
    (d : PhaseDurations) (D y : ℕ) :
    yearNominal (it :: items) d D y =
      itemYearAlloc d D it y + yearNominal items d D y := by
  simp only [yearNominal, CLOSURE_PHASES, List.map_cons, List.map_nil, List.sum_cons,
    List.sum_nil, phaseBreakdownAt_cons]
  cases it.phase <;> simp <;> ring

/-- Summing one item's yearly allocations over the whole project recovers
its subtotal, because the allocation window lies inside `[0, D]`. -/
lemma sum_itemYearAlloc (d : PhaseDurations) (D : ℕ) (item : LineItemCost)
    (hD : getPhaseStartYear item.phase d + d.get item.phase ≤ D) :
    ∑ y ∈ Finset.range (D + 1), itemYearAlloc d D item y = item.subtotal := by
  unfold itemYearAlloc
  by_cases hdur : 0 < d.get item.phase
  · simp only [hdur, if_true]
    have hcongr : ∀ y ∈ Finset.range (D + 1),
        (if getPhaseStartYear item.phase d ≤ y ∧
            y < getPhaseStartYear item.phase d + d.get item.phase ∧ y ≤ D then
          item.subtotal / (d.get item.phase : ℚ) else 0) =
        (if y ∈ Finset.Ico (getPhaseStartYear item.phase d)
            (getPhaseStartYear item.phase d + d.get item.phase) then
          item.subtotal / (d.get item.phase : ℚ) else 0) := by
      intro y hy
      rw [Finset.mem_range] at hy
      simp only [Finset.mem_Ico]
      split_ifs <;> first | rfl | omega
    rw [Finset.sum_congr rfl hcongr, Finset.sum_ite_mem]
    have hsub : Finset.Ico (getPhaseStartYear item.phase d)
        (getPhaseStartYear item.phase d + d.get item.phase) ⊆ Finset.range (D + 1) := by
      intro y hy
      rw [Finset.mem_Ico] at hy
      rw [Finset.mem_range]
      omega
    rw [Finset.inter_eq_right.mpr hsub, Finset.sum_const, Nat.card_Ico]
    have hne : ((d.get item.phase : ℚ)) ≠ 0 := by
      exact_mod_cast Nat.pos_iff_ne_zero.mp hdur
    rw [nsmul_eq_mul]
    field_simp
  · simp only [hdur, if_false]
    have hs : getPhaseStartYear item.phase d ≤ D := le_trans (Nat.le_add_right _ _) hD
    have hcongr : ∀ y ∈ Finset.range (D + 1),
        (if y = getPhaseStartYear item.phase d ∧ getPhaseStartYear item.phase d ≤ D then
          item.subtotal else 0) =
        (if y = getPhaseStartYear item.phase d then item.subtotal else 0) := by
      intro y hy
      simp [hs]
    rw [Finset.sum_congr rfl hcongr, Finset.sum_ite_eq']
    simp [Finset.mem_range, Nat.lt_succ_of_le hs]

/-- Summing all per-year nominal costs over the whole project recovers the
sum of all line-item subtotals. -/
lemma sum_yearNominal (items : List LineItemCost) (d : PhaseDurations) :
    ∑ y ∈ Finset.range (calculateTotalDuration d + 1),
        yearNominal items d (calculateTotalDuration d) y =
      (items.map (fun it => it.subtotal)).sum := by
  induction items with
  | nil => simp [yearNominal_nil]
  | cons it items ih =>
      simp only [yearNominal_cons, Finset.sum_add_distrib, ih, List.map_cons, List.sum_cons]
      rw [sum_itemYearAlloc d (calculateTotalDuration d) it (phase_window_le d it.phase)]

/-- The combined line-item list built by `calculateClosureCosts` (direct
works followed by indirect costs). -/
def allLineItems (inputs : InputState) : List LineItemCost :=
  let derived := calculateDerivedQuantities inputs
  let directItems := calculateDirectWorksCosts inputs derived
  let directWorksCost := (directItems.map (fun item => item.subtotal)).sum
  directItems ++ calculateIndirectCosts directWorksCost inputs derived

lemma closure_lineItems_eq (inputs : InputState) :
    (calculateClosureCosts inputs).lineItems = allLineItems inputs := rfl

lemma closure_cashflows_eq (inputs : InputState) :
    (calculateClosureCosts inputs).annualCashflows =
      calculateAnnualCashflows (allLineItems inputs) inputs := rfl

lemma cashflows_nominal_map (items : List LineItemCost) (inputs : InputState) :
    (calculateAnnualCashflows items inputs).map (fun cf => cf.nominalCost) =
      (List.range (calculateTotalDuration inputs.phaseDurations + 1)).map
        (fun i => yearNominal items inputs.phaseDurations
          (calculateTotalDuration inputs.phaseDurations) i) := by
  simp only [calculateAnnualCashflows, List.map_map]
  rfl

lemma closure_totalNominal (inputs : InputState) :
    (calculateClosureCosts inputs).totalNominalCost =
      ((allLineItems inputs).map (fun it => it.subtotal)).sum := by
  simp only [calculateClosureCosts, allLineItems, List.map_append, List.sum_append]

-- ===========================================================================
-- Risk uplift map: monotonicity and continuity
-- ===========================================================================

lemma riskScoreToUplift_mono : Monotone riskScoreToUplift := by
  intro x y hxy
  unfold riskScoreToUplift
  split_ifs <;> linarith

lemma riskScoreToUplift_continuous : Continuous riskScoreToUplift := by
  have h4 : Continuous (fun x : ℚ =>
      if x ≤ 80 then 20 + (x - 60) / 20 * 15 else 35 + (x - 80) / 20 * 15) := by
    apply Continuous.if_le (by fun_prop) (by fun_prop) continuous_id continuous_const
    intro x hx
    subst hx
    norm_num
  have h3 : Continuous (fun x : ℚ =>
      if x ≤ 60 then 10 + (x - 40) / 20 * 10
      else if x ≤ 80 then 20 + (x - 60) / 20 * 15 else 35 + (x - 80) / 20 * 15) := by
    apply Continuous.if_le (by fun_prop) h4 continuous_id continuous_const
    intro x hx
    subst hx
    norm_num
  have h2 : Continuous (fun x : ℚ =>
      if x ≤ 40 then 5 + (x - 20) / 20 * 5
      else if x ≤ 60 then 10 + (x - 40) / 20 * 10
      else if x ≤ 80 then 20 + (x - 60) / 20 * 15 else 35 + (x - 80) / 20 * 15) := by
    apply Continuous.if_le (by fun_prop) h3 continuous_id continuous_const
    intro x hx
    subst hx
    norm_num
  have h1 : Continuous (fun x : ℚ =>
      if x ≤ 20 then x / 20 * 5
      else if x ≤ 40 then 5 + (x - 20) / 20 * 5
      else if x ≤ 60 then 10 + (x - 40) / 20 * 10
      else if x ≤ 80 then 20 + (x - 60) / 20 * 15 else 35 + (x - 80) / 20 * 15) := by
    apply Continuous.if_le (by fun_prop) h2 continuous_id continuous_const
    intro x hx
    subst hx
    norm_num
  exact h1

-- ===========================================================================
-- Nonnegativity of costs on the validated domain
-- ===========================================================================

lemma mem_gate {c : Prop} [Decidable c] {l : List LineItemCost} {it : LineItemCost}
    (h : it ∈ if c then l else []) : c ∧ it ∈ l := by
  split_ifs at h with hc
  · exact ⟨hc, h⟩
  · simp at h

lemma riskScore_nonneg (i : InputState) (hv : ValidInputs i) :
    0 ≤ calculateRiskScore i.riskFactors := by
  have h1 := hv.contaminationUncertainty_lb
  have h2 := hv.geotechUncertainty_lb
  have h3 := hv.waterQualityUncertainty_lb
  have h4 := hv.regulatoryUncertainty_lb
  have h5 := hv.logisticsComplexity_lb
  unfold calculateRiskScore jsRound
  apply div_nonneg _ (by norm_num)
  have hfloor : (0 : ℤ) ≤
      ⌊(i.riskFactors.contaminationUncertainty * (25 / 100) +
        i.riskFactors.geotechUncertainty * (20 / 100) +
        i.riskFactors.waterQualityUncertainty * (25 / 100) +
        i.riskFactors.regulatoryUncertainty * (15 / 100) +
        i.riskFactors.logisticsComplexity * (15 / 100)) * 10 + 1 / 2⌋ := by
    apply Int.floor_nonneg.mpr
    nlinarith
  exact_mod_cast hfloor

lemma riskUplift_nonneg (i : InputState) (hv : ValidInputs i) :
    0 ≤ (calculateDerivedQuantities i).riskUpliftPercent := by
  have h0 : riskScoreToUplift 0 = 0 := by norm_num [riskScoreToUplift]
  have := riskScoreToUplift_mono (riskScore_nonneg i hv)
  rw [h0] at this
  exact this

lemma direct_subtotals_nonneg (i : InputState) (hv : ValidInputs i) :
    ∀ it ∈ calculateDirectWorksCosts i (calculateDerivedQuantities i), 0 ≤ it.subtotal := by
  intro it hit
  simp only [calculateDirectWorksCosts, List.mem_append] at hit
  rcases hit with
    ((((((((((((h | h) | h) | h) | h) | h) | h) | h) | h) | h) | h) | h) | h)
  · -- mobilisation
    simp only [List.mem_singleton] at h
    subst h
    exact hv.mobilisationLumpSum_lb
  · -- demolition
    obtain ⟨hc, hm⟩ := mem_gate h
    simp only [List.mem_singleton] at hm
    subst hm
    exact mul_nonneg hc.le hv.demolitionPerBuilding_lb
  · -- general earthworks
    obtain ⟨hc, hm⟩ := mem_gate h
    simp only [List.mem_singleton] at hm
    subst hm
    exact mul_nonneg hc.le hv.earthworksPerM3_lb
  · -- topsoil placement
    obtain ⟨hc, hm⟩ := mem_gate h
    simp only [List.mem_singleton] at hm
    subst hm
    exact mul_nonneg hc.le hv.topsoilPerM3_lb
  · -- TSF capping
    obtain ⟨hc, hm⟩ := mem_gate h
    simp only [List.mem_singleton] at hm
    subst hm
    exact mul_nonneg (mul_nonneg hv.tsfAreaHa_lb (by norm_num))
      (mul_nonneg hv.cappingBasePerM2_lb
        (mul_nonneg hv.tsfCoverThicknessM_lb
          (le_trans (by norm_num) hv.cappingThicknessFactor_lb)))
  · -- WRD reshaping
    obtain ⟨hc, hm⟩ := mem_gate h
    simp only [List.mem_singleton] at hm
    subst hm
    exact mul_nonneg (mul_nonneg hv.wrdFootprintHa_lb (by norm_num))
      (mul_nonneg hv.cappingBasePerM2_lb
        (mul_nonneg
          (mul_nonneg hv.wrdReshapingDepthM_lb
            (le_trans (by norm_num) hv.cappingThicknessFactor_lb))
          (by norm_num)))
  · -- water treatment capex and opex
    obtain ⟨hc, hm⟩ := mem_gate h
    have hint : (0 : ℚ) ≤ i.quantities.waterTreatmentIntensityFactor :=
      le_trans (by norm_num) hv.waterTreatmentIntensityFactor_lb
    simp only [List.mem_cons, List.mem_singleton, List.not_mem_nil, or_false] at hm
    rcases hm with hm | hm <;> subst hm
    · exact mul_nonneg hv.waterTreatmentCapex_lb hint
    · exact mul_nonneg
        (mul_nonneg
          (mul_nonneg (mul_nonneg hv.waterTreatmentFlowMLPerDay_lb (by norm_num))
            hv.waterTreatmentOpexPerML_lb)
          hint)
        hv.waterTreatmentDurationYears_lb
  · -- revegetation
    obtain ⟨hc, hm⟩ := mem_gate h
    simp only [List.mem_singleton] at hm
    subst hm
    exact mul_nonneg hc.le
      (mul_nonneg hv.revegetationPerHa_lb
        (le_trans (by norm_num) hv.revegetationComplexityFactor_lb))
  · -- erosion controls
    obtain ⟨hc, hm⟩ := mem_gate h
    simp only [List.mem_singleton] at hm
    subst hm
    exact mul_nonneg hc.le hv.erosionControlsPerHa_lb
  · -- road rehabilitation
    obtain ⟨hc, hm⟩ := mem_gate h
    simp only [List.mem_singleton] at hm
    subst hm
    exact mul_nonneg hc.le hv.roadRehabPerKm_lb
  · -- hazardous materials
    obtain ⟨hc, hm⟩ := mem_gate h
    simp only [List.mem_singleton] at hm
    subst hm
    exact mul_nonneg hc.2.le hv.hazardousMaterialsPerHa_lb
  · -- monitoring
    simp only [List.mem_singleton] at h
    subst h
    have hdur : (0 : ℚ) ≤ i.quantities.monitoringDurationYears :=
      le_trans (by norm_num) hv.monitoringDurationYears_lb
    refine mul_nonneg hdur ?_
    cases hmi : i.quantities.monitoringIntensity <;>
      simp only [getMonitoringRate]
    · exact hv.monitoringPerYearLow_lb
    · exact hv.monitoringPerYearMedium_lb
    · exact hv.monitoringPerYearHigh_lb
  · -- community / heritage
    obtain ⟨hc, hm⟩ := mem_gate h
    simp only [List.mem_singleton] at hm
    subst hm
    exact hv.communityHeritageLumpSum_lb

lemma directTotal_nonneg (i : InputState) (hv : ValidInputs i) :
    0 ≤ ((calculateDirectWorksCosts i (calculateDerivedQuantities i)).map
      (fun it => it.subtotal)).sum := by
  apply List.sum_nonneg
  intro q hq
  obtain ⟨it, hit, rfl⟩ := List.mem_map.mp hq
  exact direct_subtotals_nonneg i hv it hit

lemma indirect_subtotals_nonneg (i : InputState) (hv : ValidInputs i)
    (directWorksTotal : ℚ) (hd : 0 ≤ directWorksTotal) :
    ∀ it ∈ calculateIndirectCosts directWorksTotal i (calculateDerivedQuantities i),
      0 ≤ it.subtotal := by
  intro it hit
  have hs := hv.siteEstablishmentPercent_lb
  have hm := hv.contractorMarginPercent_lb
  have hc := hv.contingencyPercent_lb
  have ho := hv.ownersCostsPercent_lb
  have hu := riskUplift_nonneg i hv
  have hA : 0 ≤ directWorksTotal * (i.indirectRates.siteEstablishmentPercent / 100) := by
    positivity
  have hB : 0 ≤ directWorksTotal +
      directWorksTotal * (i.indirectRates.siteEstablishmentPercent / 100) := by
    linarith
  have hC : 0 ≤ (directWorksTotal +
      directWorksTotal * (i.indirectRates.siteEstablishmentPercent / 100)) *
        (i.indirectRates.contractorMarginPercent / 100) :=
    mul_nonneg hB (div_nonneg hm (by norm_num))
  have hD : 0 ≤ directWorksTotal +
      directWorksTotal * (i.indirectRates.siteEstablishmentPercent / 100) +
      (directWorksTotal +
        directWorksTotal * (i.indirectRates.siteEstablishmentPercent / 100)) *
          (i.indirectRates.contractorMarginPercent / 100) := by
    linarith
  have hE : 0 ≤ (directWorksTotal +
      directWorksTotal * (i.indirectRates.siteEstablishmentPercent / 100) +
      (directWorksTotal +
        directWorksTotal * (i.indirectRates.siteEstablishmentPercent / 100)) *
          (i.indirectRates.contractorMarginPercent / 100)) *
        (i.indirectRates.contingencyPercent / 100) :=
    mul_nonneg hD (div_nonneg hc (by norm_num))
  have hF : 0 ≤ (directWorksTotal +
      directWorksTotal * (i.indirectRates.siteEstablishmentPercent / 100) +
      (directWorksTotal +
        directWorksTotal * (i.indirectRates.siteEstablishmentPercent / 100)) *
          (i.indirectRates.contractorMarginPercent / 100)) *
        ((calculateDerivedQuantities i).riskUpliftPercent / 100) :=
    mul_nonneg hD (div_nonneg hu (by norm_num))
  simp only [calculateIndirectCosts, List.mem_cons, List.mem_singleton,
    List.not_mem_nil, or_false] at hit
  rcases hit with h | h | h | h | h <;> subst h <;> simp only
  · exact hA
  · exact hC
  · exact hE
  · exact hF
  · refine mul_nonneg ?_ (div_nonneg ho (by norm_num))
    linarith

lemma allLineItems_subtotal_nonneg (i : InputState) (hv : ValidInputs i) :
    ∀ it ∈ allLineItems i, 0 ≤ it.subtotal := by
  intro it hit
  simp only [allLineItems, List.mem_append] at hit
  rcases hit with h | h
  · exact direct_subtotals_nonneg i hv it h
  · exact indirect_subtotals_nonneg i hv _ (directTotal_nonneg i hv) it h

lemma yearNominal_nonneg (items : List LineItemCost) (d : PhaseDurations) (D y : ℕ)
    (h : ∀ it ∈ items, 0 ≤ it.subtotal) : 0 ≤ yearNominal items d D y := by
  induction items with
  | nil => rw [yearNominal_nil]
  | cons it items ih =>
      rw [yearNominal_cons]
      have hhead : 0 ≤ itemYearAlloc d D it y := by
        have hsub : 0 ≤ it.subtotal := h it (List.mem_cons_self it items)
        simp only [itemYearAlloc]
        split_ifs
        · exact div_nonneg hsub (by positivity)
        · rfl
        · exact hsub
        · rfl
      have htail : 0 ≤ yearNominal items d D y :=
        ih fun x hx => h x (List.mem_cons_of_mem _ hx)
      linarith

-- ===========================================================================
-- The discounted total in closed form
-- ===========================================================================

lemma discountRateMode_match (m : DiscountRateMode) (r : ℚ) :
    (match m with | DiscountRateMode.nominal => r | DiscountRateMode.real => r) = r := by
  cases m <;> rfl

lemma closure_totalDiscounted (inputs : InputState) :
    (calculateClosureCosts inputs).totalDiscountedCost =
      ∑ j ∈ Finset.range (calculateTotalDuration inputs.phaseDurations + 1),
        yearNominal (allLineItems inputs) inputs.phaseDurations
            (calculateTotalDuration inputs.phaseDurations) j *
          (1 + inputs.financialParams.escalationRatePercent / 100) ^ j /
          (1 + inputs.financialParams.discountRatePercent / 100) ^ j := by
  simp only [calculateClosureCosts, calculateAnnualCashflows, discountRateMode_match]
  rw [List.range_succ, List.map_append, List.map_singleton, List.getLast?_concat]
  simp only [Option.elim]
  rw [sum_range_list]
  rfl

-- ===========================================================================
-- Sort membership
-- ===========================================================================

lemma mem_insertDescBy {α : Type} (key : α → ℚ) (x a : α) (l : List α) :
    a ∈ insertDescBy key x l ↔ a = x ∨ a ∈ l := by
  induction l with
  | nil => simp [insertDescBy]
  | cons y ys ih =>
      simp only [insertDescBy]
      split_ifs
      · simp
      · simp only [List.mem_cons, ih]
        tauto

lemma mem_sortDescBy {α : Type} (key : α → ℚ) (a : α) (l : List α) :
    a ∈ sortDescBy key l ↔ a ∈ l := by
  induction l with
  | nil => simp [sortDescBy]
  | cons y ys ih => simp [sortDescBy, mem_insertDescBy, ih]

/-- A sample line item for concrete instantiations. -/
def sampleLineItem : LineItemCost :=
  { category := .Mobilisation
    description := "sample"
    quantity := 1
    unit := "lump sum"
    unitRate := 1
    subtotal := 1
    phase := .PlanningApprovals }

/-- Placeholder summaries used as default elements of list indexing in
closed witness statements. -/
def dummyPhaseSummary : PhaseCostSummary :=
  { phase := .PlanningApprovals, totalCost := 0, percentOfTotal := 0 }

def dummyCategorySummary : CategoryCostSummary :=
  { category := .Mobilisation, totalCost := 0, percentOfTotal := 0 }

-- ===========================================================================
-- The sensitivity total in closed form
-- ===========================================================================

/-- The direct-works subtotal sum. -/
def directTotal (i : InputState) : ℚ :=
  ((calculateDirectWorksCosts i (calculateDerivedQuantities i)).map
    (fun it => it.subtotal)).sum

/-- The multiplier the five-step indirect waterfall applies to the direct
total: site establishment, margin, contingency plus risk uplift on the
same base, then owner's costs. -/
def indirectFactor (i : InputState) : ℚ :=
  (1 + i.indirectRates.siteEstablishmentPercent / 100) *
    (1 + i.indirectRates.contractorMarginPercent / 100) *
    (1 + (i.indirectRates.contingencyPercent +
      (calculateDerivedQuantities i).riskUpliftPercent) / 100) *
    (1 + i.indirectRates.ownersCostsPercent / 100)

lemma sensTotal_factored (i : InputState) :
    (calculateTotalForSensitivity i).total = directTotal i * indirectFactor i := by
  simp only [calculateTotalForSensitivity, calculateIndirectCosts, directTotal,
    indirectFactor, List.map_append, List.sum_append, List.map_cons, List.map_nil,
    List.sum_cons, List.sum_nil]
  ring

lemma sum_gate (c : Prop) [Decidable c] (l : List LineItemCost) :
    ((if c then l else []).map (fun it => it.subtotal)).sum =
      if c then (l.map (fun it => it.subtotal)).sum else 0 := by
  split_ifs <;> simp

/-- The direct-works total, written out as a closed formula over the raw
input fields. -/
lemma directTotal_eq (i : InputState) :
    directTotal i =
      i.unitRates.mobilisationLumpSum
      + (if 0 < i.quantities.numberOfBuildings then
          i.quantities.numberOfBuildings * i.unitRates.demolitionPerBuilding else 0)
      + (if 0 < i.quantities.earthworksVolumeM3Override.getD
            (i.quantities.tsfAreaHa * 10000 * i.quantities.tsfCoverThicknessM
              + i.quantities.wrdFootprintHa * 10000 * i.quantities.wrdReshapingDepthM
                * i.unitRates.bulkingFactor) then
          i.quantities.earthworksVolumeM3Override.getD
            (i.quantities.tsfAreaHa * 10000 * i.quantities.tsfCoverThicknessM
              + i.quantities.wrdFootprintHa * 10000 * i.quantities.wrdReshapingDepthM
                * i.unitRates.bulkingFactor) * i.unitRates.earthworksPerM3 else 0)
      + (if 0 < i.quantities.disturbedAreaHa * 10000 * i.quantities.topsoilThicknessM then
          i.quantities.disturbedAreaHa * 10000 * i.quantities.topsoilThicknessM *
            i.unitRates.topsoilPerM3 else 0)
      + (if 0 < i.quantities.tsfAreaHa then
          i.quantities.tsfAreaHa * 10000 * (i.unitRates.cappingBasePerM2 *
            (i.quantities.tsfCoverThicknessM * i.unitRates.cappingThicknessFactor)) else 0)
      + (if 0 < i.quantities.wrdFootprintHa then
          i.quantities.wrdFootprintHa * 10000 * (i.unitRates.cappingBasePerM2 *
            (i.quantities.wrdReshapingDepthM * i.unitRates.cappingThicknessFactor *
              (1 / 2))) else 0)
      + (if 0 < i.quantities.waterTreatmentDurationYears ∧
            0 < i.quantities.waterTreatmentFlowMLPerDay then
          i.unitRates.waterTreatmentCapex * i.quantities.waterTreatmentIntensityFactor
            + i.quantities.waterTreatmentFlowMLPerDay * 365 *
                i.unitRates.waterTreatmentOpexPerML *
                i.quantities.waterTreatmentIntensityFactor *
                i.quantities.waterTreatmentDurationYears else 0)
      + (if 0 < i.quantities.disturbedAreaHa then
          i.quantities.disturbedAreaHa * (i.unitRates.revegetationPerHa *
            i.unitRates.revegetationComplexityFactor) else 0)
      + (if 0 < i.quantities.disturbedAreaHa then
          i.quantities.disturbedAreaHa * i.unitRates.erosionControlsPerHa else 0)
      + (if 0 < i.quantities.roadLengthKm then
          i.quantities.roadLengthKm * i.unitRates.roadRehabPerKm else 0)
      + (if i.quantities.hazardousMaterialsEnabled = true ∧
            0 < i.quantities.hazardousMaterialsAreaHa then
          i.quantities.hazardousMaterialsAreaHa * i.unitRates.hazardousMaterialsPerHa else 0)
      + i.quantities.monitoringDurationYears *
          getMonitoringRate i.quantities.monitoringIntensity
            { low := i.unitRates.monitoringPerYearLow
              medium := i.unitRates.monitoringPerYearMedium
              high := i.unitRates.monitoringPerYearHigh }
      + (if i.quantities.communityHeritageEnabled = true then
          i.unitRates.communityHeritageLumpSum else 0) := by
  cases hov : i.quantities.earthworksVolumeM3Override with
  | none =>
      simp only [directTotal, calculateDirectWorksCosts, calculateDerivedQuantities,
        haToM2, hov, Option.getD, sum_gate, List.map_append, List.sum_append,
        List.map_cons, List.sum_cons, List.map_nil, List.sum_nil]
      ring_nf
  | some v =>
      simp only [directTotal, calculateDirectWorksCosts, calculateDerivedQuantities,
        haToM2, hov, Option.getD, sum_gate, List.map_append, List.sum_append,
        List.map_cons, List.sum_cons, List.map_nil, List.sum_nil]
      ring_nf

lemma ite_pos_mono {a b u v : ℚ} (hab : a ≤ b) (hu : 0 ≤ u) (huv : u ≤ v) :
    (if 0 < a then u else 0) ≤ (if 0 < b then v else 0) := by
  split_ifs with h1 h2
  · exact huv
  · exact absurd (lt_of_lt_of_le h1 hab) h2
  · exact le_trans hu huv
  · exact le_refl 0

lemma ite_same_mono {a u v : ℚ} (h : 0 < a → u ≤ v) :
    (if 0 < a then u else 0) ≤ (if 0 < a then v else 0) := by
  split_ifs with h1
  · exact h h1
  · exact le_refl 0

lemma ite_and_pos_mono {a b w u v : ℚ} (hab : a ≤ b) (hu : 0 ≤ u) (huv : u ≤ v) :
    (if 0 < a ∧ 0 < w then u else 0) ≤ (if 0 < b ∧ 0 < w then v else 0) := by
  split_ifs with h1 h2
  · exact huv
  · exact absurd ⟨lt_of_lt_of_le h1.1 hab, h1.2⟩ h2
  · exact le_trans hu huv
  · exact le_refl 0

lemma indirectFactor_nonneg (i : InputState) (hv : ValidInputs i) :
    0 ≤ indirectFactor i := by
  have hu := riskUplift_nonneg i hv
  have h1 := hv.siteEstablishmentPercent_lb
  have h2 := hv.contractorMarginPercent_lb
  have h3 := hv.contingencyPercent_lb
  have h4 := hv.ownersCostsPercent_lb
  unfold indirectFactor
  have f1 : (0 : ℚ) ≤ 1 + i.indirectRates.siteEstablishmentPercent / 100 := by linarith
  have f2 : (0 : ℚ) ≤ 1 + i.indirectRates.contractorMarginPercent / 100 := by linarith
  have f3 : (0 : ℚ) ≤ 1 + (i.indirectRates.contingencyPercent +
      (calculateDerivedQuantities i).riskUpliftPercent) / 100 := by linarith
  have f4 : (0 : ℚ) ≤ 1 + i.indirectRates.ownersCostsPercent / 100 := by linarith
  exact mul_nonneg (mul_nonneg (mul_nonneg f1 f2) f3) f4

lemma sensTotal_mono_disturbedArea (i : InputState) (hv : ValidInputs i)
    (x y : ℚ) (hx : 0 ≤ x) (hxy : x ≤ y) :
    (calculateTotalForSensitivity
      { i with quantities := { i.quantities with disturbedAreaHa := x } }).total ≤
    (calculateTotalForSensitivity
      { i with quantities := { i.quantities with disturbedAreaHa := y } }).total := by
  have hFx : indirectFactor
      { i with quantities := { i.quantities with disturbedAreaHa := x } } =
      indirectFactor i := rfl
  have hFy : indirectFactor
      { i with quantities := { i.quantities with disturbedAreaHa := y } } =
      indirectFactor i := rfl
  rw [sensTotal_factored, sensTotal_factored, hFx, hFy]
  refine mul_le_mul_of_nonneg_right ?_ (indirectFactor_nonneg i hv)
  rw [directTotal_eq, directTotal_eq]
  dsimp only
  have htop : (if 0 < x * 10000 * i.quantities.topsoilThicknessM then
        x * 10000 * i.quantities.topsoilThicknessM * i.unitRates.topsoilPerM3 else 0) ≤
      (if 0 < y * 10000 * i.quantities.topsoilThicknessM then
        y * 10000 * i.quantities.topsoilThicknessM * i.unitRates.topsoilPerM3 else 0) := by
    have hth := hv.topsoilThicknessM_lb
    have htr := hv.topsoilPerM3_lb
    have ha : 0 ≤ x * 10000 * i.quantities.topsoilThicknessM :=
      mul_nonneg (mul_nonneg hx (by norm_num)) hth
    have hab : x * 10000 * i.quantities.topsoilThicknessM ≤
        y * 10000 * i.quantities.topsoilThicknessM :=
      mul_le_mul_of_nonneg_right (mul_le_mul_of_nonneg_right hxy (by norm_num)) hth
    exact ite_pos_mono hab (mul_nonneg ha htr) (mul_le_mul_of_nonneg_right hab htr)
  have hrev : (if 0 < x then
        x * (i.unitRates.revegetationPerHa * i.unitRates.revegetationComplexityFactor)
      else 0) ≤
      (if 0 < y then
        y * (i.unitRates.revegetationPerHa * i.unitRates.revegetationComplexityFactor)
      else 0) := by
    have h1 := hv.revegetationPerHa_lb
    have h2 : (0 : ℚ) ≤ i.unitRates.revegetationComplexityFactor :=
      le_trans (by norm_num) hv.revegetationComplexityFactor_lb
    exact ite_pos_mono hxy (mul_nonneg hx (mul_nonneg h1 h2))
      (mul_le_mul_of_nonneg_right hxy (mul_nonneg h1 h2))
  have hero : (if 0 < x then x * i.unitRates.erosionControlsPerHa else 0) ≤
      (if 0 < y then y * i.unitRates.erosionControlsPerHa else 0) := by
    have h1 := hv.erosionControlsPerHa_lb
    exact ite_pos_mono hxy (mul_nonneg hx h1) (mul_le_mul_of_nonneg_right hxy h1)
  linarith [htop, hrev, hero]

lemma sensTotal_mono_earthworksRate (i : InputState) (hv : ValidInputs i)
    (x y : ℚ) (_hx : 0 ≤ x) (hxy : x ≤ y) :
    (calculateTotalForSensitivity
      { i with unitRates := { i.unitRates with earthworksPerM3 := x } }).total ≤
    (calculateTotalForSensitivity
      { i with unitRates := { i.unitRates with earthworksPerM3 := y } }).total := by
  have hFx : indirectFactor
      { i with unitRates := { i.unitRates with earthworksPerM3 := x } } =
      indirectFactor i := rfl
  have hFy : indirectFactor
      { i with unitRates := { i.unitRates with earthworksPerM3 := y } } =
      indirectFactor i := rfl
  rw [sensTotal_factored, sensTotal_factored, hFx, hFy]
  refine mul_le_mul_of_nonneg_right ?_ (indirectFactor_nonneg i hv)
  rw [directTotal_eq, directTotal_eq]
  dsimp only
  have hearth : (if 0 < i.quantities.earthworksVolumeM3Override.getD
        (i.quantities.tsfAreaHa * 10000 * i.quantities.tsfCoverThicknessM
          + i.quantities.wrdFootprintHa * 10000 * i.quantities.wrdReshapingDepthM
            * i.unitRates.bulkingFactor) then
      i.quantities.earthworksVolumeM3Override.getD
        (i.quantities.tsfAreaHa * 10000 * i.quantities.tsfCoverThicknessM
          + i.quantities.wrdFootprintHa * 10000 * i.quantities.wrdReshapingDepthM
            * i.unitRates.bulkingFactor) * x else 0) ≤
      (if 0 < i.quantities.earthworksVolumeM3Override.getD
        (i.quantities.tsfAreaHa * 10000 * i.quantities.tsfCoverThicknessM
          + i.quantities.wrdFootprintHa * 10000 * i.quantities.wrdReshapingDepthM
            * i.unitRates.bulkingFactor) then
      i.quantities.earthworksVolumeM3Override.getD
        (i.quantities.tsfAreaHa * 10000 * i.quantities.tsfCoverThicknessM
          + i.quantities.wrdFootprintHa * 10000 * i.quantities.wrdReshapingDepthM
            * i.unitRates.bulkingFactor) * y else 0) :=
    ite_same_mono fun hg => mul_le_mul_of_nonneg_left hxy hg.le
  linarith [hearth]

lemma sensTotal_mono_tsfArea (i : InputState) (hv : ValidInputs i)
    (x y : ℚ) (hx : 0 ≤ x) (hxy : x ≤ y) :
    (calculateTotalForSensitivity
      { i with quantities := { i.quantities with tsfAreaHa := x } }).total ≤
    (calculateTotalForSensitivity
      { i with quantities := { i.quantities with tsfAreaHa := y } }).total := by
  have hFx : indirectFactor
      { i with quantities := { i.quantities with tsfAreaHa := x } } =
      indirectFactor i := rfl
  have hFy : indirectFactor
      { i with quantities := { i.quantities with tsfAreaHa := y } } =
      indirectFactor i := rfl
  rw [sensTotal_factored, sensTotal_factored, hFx, hFy]
  refine mul_le_mul_of_nonneg_right ?_ (indirectFactor_nonneg i hv)
  rw [directTotal_eq, directTotal_eq]
  dsimp only
  have hR : (0 : ℚ) ≤ i.unitRates.cappingBasePerM2 *
      (i.quantities.tsfCoverThicknessM * i.unitRates.cappingThicknessFactor) :=
    mul_nonneg hv.cappingBasePerM2_lb
      (mul_nonneg hv.tsfCoverThicknessM_lb
        (le_trans (by norm_num) hv.cappingThicknessFactor_lb))
  have htsf : (if 0 < x then x * 10000 * (i.unitRates.cappingBasePerM2 *
        (i.quantities.tsfCoverThicknessM * i.unitRates.cappingThicknessFactor)) else 0) ≤
      (if 0 < y then y * 10000 * (i.unitRates.cappingBasePerM2 *
        (i.quantities.tsfCoverThicknessM * i.unitRates.cappingThicknessFactor)) else 0) :=
    ite_pos_mono hxy (mul_nonneg (mul_nonneg hx (by norm_num)) hR)
      (mul_le_mul_of_nonneg_right (mul_le_mul_of_nonneg_right hxy (by norm_num)) hR)
  cases hov : i.quantities.earthworksVolumeM3Override with
  | some v =>
      simp only [hov, Option.getD_some]
      linarith [htsf]
  | none =>
      simp only [hov, Option.getD_none]
      have hW : (0 : ℚ) ≤ i.quantities.wrdFootprintHa * 10000 *
          i.quantities.wrdReshapingDepthM * i.unitRates.bulkingFactor :=
        mul_nonneg
          (mul_nonneg (mul_nonneg hv.wrdFootprintHa_lb (by norm_num))
            hv.wrdReshapingDepthM_lb)
          (le_trans (by norm_num) hv.bulkingFactor_lb)
      have hth := hv.tsfCoverThicknessM_lb
      have hax : (0 : ℚ) ≤ x * 10000 * i.quantities.tsfCoverThicknessM +
          i.quantities.wrdFootprintHa * 10000 * i.quantities.wrdReshapingDepthM *
            i.unitRates.bulkingFactor :=
        add_nonneg (mul_nonneg (mul_nonneg hx (by norm_num)) hth) hW
      have hab : x * 10000 * i.quantities.tsfCoverThicknessM +
          i.quantities.wrdFootprintHa * 10000 * i.quantities.wrdReshapingDepthM *
            i.unitRates.bulkingFactor ≤
          y * 10000 * i.quantities.tsfCoverThicknessM +
          i.quantities.wrdFootprintHa * 10000 * i.quantities.wrdReshapingDepthM *
            i.unitRates.bulkingFactor := by
        have := mul_le_mul_of_nonneg_right
          (mul_le_mul_of_nonneg_right hxy (by norm_num : (0:ℚ) ≤ 10000)) hth
        linarith
      have hearth := ite_pos_mono hab (mul_nonneg hax hv.earthworksPerM3_lb)
        (mul_le_mul_of_nonneg_right hab hv.earthworksPerM3_lb)
      linarith [htsf, hearth]

lemma sensTotal_mono_tsfThickness (i : InputState) (hv : ValidInputs i)
    (x y : ℚ) (hx : 0 ≤ x) (hxy : x ≤ y) :
    (calculateTotalForSensitivity
      { i with quantities := { i.quantities with tsfCoverThicknessM := x } }).total ≤
    (calculateTotalForSensitivity
      { i with quantities := { i.quantities with tsfCoverThicknessM := y } }).total := by
  have hFx : indirectFactor
      { i with quantities := { i.quantities with tsfCoverThicknessM := x } } =
      indirectFactor i := rfl
  have hFy : indirectFactor
      { i with quantities := { i.quantities with tsfCoverThicknessM := y } } =
      indirectFactor i := rfl
  rw [sensTotal_factored, sensTotal_factored, hFx, hFy]
  refine mul_le_mul_of_nonneg_right ?_ (indirectFactor_nonneg i hv)
  rw [directTotal_eq, directTotal_eq]
  dsimp only
  have hcf : (0 : ℚ) ≤ i.unitRates.cappingThicknessFactor :=
    le_trans (by norm_num) hv.cappingThicknessFactor_lb
  have htsf : (if 0 < i.quantities.tsfAreaHa then
        i.quantities.tsfAreaHa * 10000 * (i.unitRates.cappingBasePerM2 *
          (x * i.unitRates.cappingThicknessFactor)) else 0) ≤
      (if 0 < i.quantities.tsfAreaHa then
        i.quantities.tsfAreaHa * 10000 * (i.unitRates.cappingBasePerM2 *
          (y * i.unitRates.cappingThicknessFactor)) else 0) := by
    refine ite_same_mono fun hg => ?_
    refine mul_le_mul_of_nonneg_left ?_ (by nlinarith)
    exact mul_le_mul_of_nonneg_left (mul_le_mul_of_nonneg_right hxy hcf)
      hv.cappingBasePerM2_lb
  cases hov : i.quantities.earthworksVolumeM3Override with
  | some v =>
      simp only [hov, Option.getD_some]
      linarith [htsf]
  | none =>
      simp only [hov, Option.getD_none]
      have hW : (0 : ℚ) ≤ i.quantities.wrdFootprintHa * 10000 *
          i.quantities.wrdReshapingDepthM * i.unitRates.bulkingFactor :=
        mul_nonneg
          (mul_nonneg (mul_nonneg hv.wrdFootprintHa_lb (by norm_num))
            hv.wrdReshapingDepthM_lb)
          (le_trans (by norm_num) hv.bulkingFactor_lb)
      have hta : (0 : ℚ) ≤ i.quantities.tsfAreaHa * 10000 :=
        mul_nonneg hv.tsfAreaHa_lb (by norm_num)
      have hax : (0 : ℚ) ≤ i.quantities.tsfAreaHa * 10000 * x +
          i.quantities.wrdFootprintHa * 10000 * i.quantities.wrdReshapingDepthM *
            i.unitRates.bulkingFactor :=
        add_nonneg (mul_nonneg hta hx) hW
      have hab : i.quantities.tsfAreaHa * 10000 * x +
          i.quantities.wrdFootprintHa * 10000 * i.quantities.wrdReshapingDepthM *
            i.unitRates.bulkingFactor ≤
          i.quantities.tsfAreaHa * 10000 * y +
          i.quantities.wrdFootprintHa * 10000 * i.quantities.wrdReshapingDepthM *
            i.unitRates.bulkingFactor := by
        have := mul_le_mul_of_nonneg_left hxy hta
        linarith
      have hearth := ite_pos_mono hab (mul_nonneg hax hv.earthworksPerM3_lb)
        (mul_le_mul_of_nonneg_right hab hv.earthworksPerM3_lb)
      linarith [htsf, hearth]

lemma sensTotal_mono_waterDuration (i : InputState) (hv : ValidInputs i)
    (x y : ℚ) (hx : 0 ≤ x) (hxy : x ≤ y) :
    (calculateTotalForSensitivity
      { i with quantities :=
        { i.quantities with waterTreatmentDurationYears := x } }).total ≤
    (calculateTotalForSensitivity
      { i with quantities :=
        { i.quantities with waterTreatmentDurationYears := y } }).total := by
  have hFx : indirectFactor
      { i with quantities := { i.quantities with waterTreatmentDurationYears := x } } =
      indirectFactor i := rfl
  have hFy : indirectFactor
      { i with quantities := { i.quantities with waterTreatmentDurationYears := y } } =
      indirectFactor i := rfl
  rw [sensTotal_factored, sensTotal_factored, hFx, hFy]
  refine mul_le_mul_of_nonneg_right ?_ (indirectFactor_nonneg i hv)
  rw [directTotal_eq, directTotal_eq]
  dsimp only
  have hint : (0 : ℚ) ≤ i.quantities.waterTreatmentIntensityFactor :=
    le_trans (by norm_num) hv.waterTreatmentIntensityFactor_lb
  have hcap : (0 : ℚ) ≤ i.unitRates.waterTreatmentCapex *
      i.quantities.waterTreatmentIntensityFactor :=
    mul_nonneg hv.waterTreatmentCapex_lb hint
  have hop : (0 : ℚ) ≤ i.quantities.waterTreatmentFlowMLPerDay * 365 *
      i.unitRates.waterTreatmentOpexPerML * i.quantities.waterTreatmentIntensityFactor :=
    mul_nonneg
      (mul_nonneg (mul_nonneg hv.waterTreatmentFlowMLPerDay_lb (by norm_num))
        hv.waterTreatmentOpexPerML_lb)
      hint
  have hwater : (if 0 < x ∧ 0 < i.quantities.waterTreatmentFlowMLPerDay then
        i.unitRates.waterTreatmentCapex * i.quantities.waterTreatmentIntensityFactor
          + i.quantities.waterTreatmentFlowMLPerDay * 365 *
              i.unitRates.waterTreatmentOpexPerML *
              i.quantities.waterTreatmentIntensityFactor * x else 0) ≤
      (if 0 < y ∧ 0 < i.quantities.waterTreatmentFlowMLPerDay then
        i.unitRates.waterTreatmentCapex * i.quantities.waterTreatmentIntensityFactor
          + i.quantities.waterTreatmentFlowMLPerDay * 365 *
              i.unitRates.waterTreatmentOpexPerML *
              i.quantities.waterTreatmentIntensityFactor * y else 0) := by
    refine ite_and_pos_mono hxy ?_ ?_
    · exact add_nonneg hcap (mul_nonneg hop hx)
    · have := mul_le_mul_of_nonneg_left hxy hop
      linarith
  linarith [hwater]

lemma sensTotal_mono_contingency (i : InputState) (hv : ValidInputs i)
    (x y : ℚ) (hx : 0 ≤ x) (hxy : x ≤ y) :
    (calculateTotalForSensitivity
      { i with indirectRates := { i.indirectRates with contingencyPercent := x } }).total ≤
    (calculateTotalForSensitivity
      { i with indirectRates := { i.indirectRates with contingencyPercent := y } }).total := by
  have hDx : directTotal
      { i with indirectRates := { i.indirectRates with contingencyPercent := x } } =
      directTotal i := rfl
  have hDy : directTotal
      { i with indirectRates := { i.indirectRates with contingencyPercent := y } } =
      directTotal i := rfl
  rw [sensTotal_factored, sensTotal_factored, hDx, hDy]
  refine mul_le_mul_of_nonneg_left ?_ (directTotal_nonneg i hv)
  unfold indirectFactor
  dsimp only
  have hu : (0 : ℚ) ≤ (calculateDerivedQuantities i).riskUpliftPercent :=
    riskUplift_nonneg i hv
  have h1 := hv.siteEstablishmentPercent_lb
  have h2 := hv.contractorMarginPercent_lb
  have h4 := hv.ownersCostsPercent_lb
  have fA : (0 : ℚ) ≤ (1 + i.indirectRates.siteEstablishmentPercent / 100) *
      (1 + i.indirectRates.contractorMarginPercent / 100) := by
    have : (0 : ℚ) ≤ 1 + i.indirectRates.siteEstablishmentPercent / 100 := by linarith
    have : (0 : ℚ) ≤ 1 + i.indirectRates.contractorMarginPercent / 100 := by linarith
    positivity
  have f4 : (0 : ℚ) ≤ 1 + i.indirectRates.ownersCostsPercent / 100 := by linarith
  have hmid : (1 : ℚ) + (x + (calculateDerivedQuantities i).riskUpliftPercent) / 100 ≤
      1 + (y + (calculateDerivedQuantities i).riskUpliftPercent) / 100 := by linarith
  have hmid0 : (0 : ℚ) ≤ 1 + (x + (calculateDerivedQuantities i).riskUpliftPercent) / 100 := by
    linarith
  refine mul_le_mul_of_nonneg_right ?_ f4
  exact mul_le_mul_of_nonneg_left hmid fA

lemma sensTotal_mono_revegRate (i : InputState) (hv : ValidInputs i)
    (x y : ℚ) (_hx : 0 ≤ x) (hxy : x ≤ y) :
    (calculateTotalForSensitivity
      { i with unitRates := { i.unitRates with revegetationPerHa := x } }).total ≤
    (calculateTotalForSensitivity
      { i with unitRates := { i.unitRates with revegetationPerHa := y } }).total := by
  have hFx : indirectFactor
      { i with unitRates := { i.unitRates with revegetationPerHa := x } } =
      indirectFactor i := rfl
  have hFy : indirectFactor
      { i with unitRates := { i.unitRates with revegetationPerHa := y } } =
      indirectFactor i := rfl
  rw [sensTotal_factored, sensTotal_factored, hFx, hFy]
  refine mul_le_mul_of_nonneg_right ?_ (indirectFactor_nonneg i hv)
  rw [directTotal_eq, directTotal_eq]
  dsimp only
  have hrc : (0 : ℚ) ≤ i.unitRates.revegetationComplexityFactor :=
    le_trans (by norm_num) hv.revegetationComplexityFactor_lb
  have hrev : (if 0 < i.quantities.disturbedAreaHa then
        i.quantities.disturbedAreaHa * (x * i.unitRates.revegetationComplexityFactor)
      else 0) ≤
      (if 0 < i.quantities.disturbedAreaHa then
        i.quantities.disturbedAreaHa * (y * i.unitRates.revegetationComplexityFactor)
      else 0) :=
    ite_same_mono fun hg =>
      mul_le_mul_of_nonneg_left (mul_le_mul_of_nonneg_right hxy hrc) hg.le
  linarith [hrev]

-- ===========================================================================
-- Claim theorems
-- ===========================================================================

/-- C1: `calculateTotalDuration` returns
`planning + decomm + max(earthworks, tsfWrd) + reveg + max(water, monitoring)
+ relinquishment`, and `getPhaseStartYear` matches the overlap model:
planning starts at 0; decommissioning after planning; earthworks, TSF/WRD
rehabilitation and water management all start after decommissioning;
revegetation starts after `max(earthworks, tsfWrd)` finishes; monitoring
after revegetation; relinquishment after `max(water, monitoring)` measured
from the monitoring start point. -/
theorem duration_and_phase_starts (d : PhaseDurations) :
    calculateTotalDuration d =
      d.planningApprovals + d.decommissioningDemolition +
        max d.earthworksLandform d.tailingsWRDRehabilitation +
        d.revegetationEcosystem +
        max d.waterManagement d.monitoringMaintenance +
        d.relinquishmentPostClosure
    ∧ getPhaseStartYear .PlanningApprovals d = 0
    ∧ getPhaseStartYear .DecommissioningDemolition d =
        getPhaseStartYear .PlanningApprovals d + d.planningApprovals
    ∧ getPhaseStartYear .EarthworksLandform d =
        getPhaseStartYear .DecommissioningDemolition d + d.decommissioningDemolition
    ∧ getPhaseStartYear .TailingsWRDRehabilitation d =
        getPhaseStartYear .DecommissioningDemolition d + d.decommissioningDemolition
    ∧ getPhaseStartYear .WaterManagement d =
        getPhaseStartYear .DecommissioningDemolition d + d.decommissioningDemolition
    ∧ getPhaseStartYear .RevegetationEcosystem d =
        getPhaseStartYear .EarthworksLandform d +
          max d.earthworksLandform d.tailingsWRDRehabilitation
    ∧ getPhaseStartYear .MonitoringMaintenance d =
        getPhaseStartYear .RevegetationEcosystem d + d.revegetationEcosystem
    ∧ getPhaseStartYear .RelinquishmentPostClosure d =
        getPhaseStartYear .MonitoringMaintenance d +
          max d.waterManagement d.monitoringMaintenance := by
  refine ⟨?_, ?_, ?_, ?_, ?_, ?_, ?_, ?_, ?_⟩
  all_goals simp only [calculateTotalDuration, getPhaseStartYear]
  all_goals omega

/-- C2: for every input state, the sum of `nominalCost` over the annual
cashflow sequence equals `totalNominalCost` (exactly, hence within any
rounding tolerance): no line item's cost is lost to year-clipping, because
every phase's allocation window `[start, start + duration)` lies within
`[0, totalDuration]`. -/
theorem cashflow_nominal_sum_eq_totalNominal (inputs : InputState) :
    ((calculateClosureCosts inputs).annualCashflows.map (fun cf => cf.nominalCost)).sum
      = (calculateClosureCosts inputs).totalNominalCost
    ∧ ∀ p : ClosurePhase,
        getPhaseStartYear p inputs.phaseDurations + inputs.phaseDurations.get p ≤
          calculateTotalDuration inputs.phaseDurations := by
  constructor
  · rw [closure_cashflows_eq, cashflows_nominal_map, sum_range_list, sum_yearNominal,
      closure_totalNominal]
  · exact fun p => phase_window_le inputs.phaseDurations p

/-- C5: `calculateIndirectCosts` produces exactly five line items whose
subtotals form the waterfall: site establishment on the direct total;
contractor margin on direct + site establishment; contingency and risk
uplift both on direct + site establishment + margin (the same base, not
compounded on each other); owner's costs on the sum of everything before
it. -/
theorem indirect_costs_waterfall (directWorksTotal : ℚ) (inputs : InputState)
    (derived : DerivedQuantities) :
    let siteEst := directWorksTotal * (inputs.indirectRates.siteEstablishmentPercent / 100)
    let margin :=
      (directWorksTotal + siteEst) * (inputs.indirectRates.contractorMarginPercent / 100)
    let contingency :=
      (directWorksTotal + siteEst + margin) * (inputs.indirectRates.contingencyPercent / 100)
    let riskUplift :=
      (directWorksTotal + siteEst + margin) * (derived.riskUpliftPercent / 100)
    let owners :=
      (directWorksTotal + siteEst + margin + contingency + riskUplift) *
        (inputs.indirectRates.ownersCostsPercent / 100)
    (calculateIndirectCosts directWorksTotal inputs derived).length = 5 ∧
    (calculateIndirectCosts directWorksTotal inputs derived).map
        (fun it => (it.category, it.subtotal)) =
      [(.SiteEstablishment, siteEst), (.ContractorMargin, margin),
        (.Contingency, contingency), (.RiskUplift, riskUplift),
        (.OwnersCosts, owners)] := by
  exact ⟨rfl, rfl⟩

/-- C9: flipping `discountRateMode` between `real` and `nominal` while
holding all other inputs fixed yields structurally identical results from
`calculateClosureCosts`: the mode flag has no numeric effect anywhere in
the pipeline. -/
theorem discount_mode_has_no_effect (inputs : InputState) :
    calculateClosureCosts (setDiscountRateMode inputs .real) =
      calculateClosureCosts (setDiscountRateMode inputs .nominal) := rfl

/-- C10: the simplified pipeline used inside the sensitivity analysis
agrees with the main entry point: `calculateTotalForSensitivity` returns
exactly `totalNominalCost` as its total and `totalDiscountedCost` as its
NPV. -/
theorem sensitivity_pipeline_refines_main (inputs : InputState) :
    (calculateTotalForSensitivity inputs).total =
        (calculateClosureCosts inputs).totalNominalCost
    ∧ (calculateTotalForSensitivity inputs).npv =
        (calculateClosureCosts inputs).totalDiscountedCost := by
  constructor
  · simp only [calculateTotalForSensitivity, calculateClosureCosts, List.map_append,
      List.sum_append]
  · rfl

/-- C6: `riskScoreToUplift` is monotone non-decreasing and continuous over
`[0, 100]`, and takes the values 0, 5, 10, 20, 35, 50 at the breakpoints
0, 20, 40, 60, 80, 100 exactly. -/
theorem riskScoreToUplift_props :
    MonotoneOn riskScoreToUplift (Set.Icc 0 100)
    ∧ ContinuousOn riskScoreToUplift (Set.Icc 0 100)
    ∧ riskScoreToUplift 0 = 0 ∧ riskScoreToUplift 20 = 5 ∧ riskScoreToUplift 40 = 10
    ∧ riskScoreToUplift 60 = 20 ∧ riskScoreToUplift 80 = 35
    ∧ riskScoreToUplift 100 = 50 := by
  refine ⟨riskScoreToUplift_mono.monotoneOn _,
    riskScoreToUplift_continuous.continuousOn, ?_, ?_, ?_, ?_, ?_, ?_⟩
  all_goals norm_num [riskScoreToUplift]

/-- C7: when the grand total passed to the breakdown functions is 0, every
`percentOfTotal` in the phase and category breakdowns is 0 (never division
by zero); when `totalNominalCost` is 0 the monitoring cost share is 0; and
`calculateSensitivity` emits no result for a driver whose base value is
exactly 0 (the driver is skipped rather than divided). -/
theorem zero_total_guards :
    (∀ items : List LineItemCost, ∀ s ∈ calculatePhaseBreakdown items 0,
      s.percentOfTotal = 0)
    ∧ (∀ items : List LineItemCost, ∀ s ∈ calculateCategoryBreakdown items 0,
      s.percentOfTotal = 0)
    ∧ (∀ inputs : InputState, (calculateClosureCosts inputs).totalNominalCost = 0 →
      (calculateClosureCosts inputs).monitoringCostShare = 0)
    ∧ (∀ (inputs : InputState) (v : ℚ), ∀ r ∈ calculateSensitivity inputs v,
      r.baseValue ≠ 0) := by
  refine ⟨?_, ?_, ?_, ?_⟩
  · intro items s hs
    simp only [calculatePhaseBreakdown, List.mem_map] at hs
    obtain ⟨p, _, rfl⟩ := hs
    simp
  · intro items s hs
    simp only [calculateCategoryBreakdown, mem_sortDescBy] at hs
    obtain ⟨pair, _, hsome⟩ := List.mem_filterMap.mp hs
    by_cases h2 : 0 < pair.2
    · simp only [h2, if_true, Option.some.injEq] at hsome
      subst hsome
      simp
    · simp [h2] at hsome
  · intro inputs h
    simp only [calculateClosureCosts] at h ⊢
    rw [h]
    simp
  · intro inputs v r hr
    simp only [calculateSensitivity, mem_sortDescBy] at hr
    obtain ⟨driver, _, hsome⟩ := List.mem_filterMap.mp hr
    by_cases h0 : driver.getValue inputs = 0
    · simp [h0] at hsome
    · simp only [h0, if_false, Option.some.injEq] at hsome
      subst hsome
      simpa using h0

/-- Witness for C7 at concrete inputs: a one-item breakdown with zero grand
total, the zero-cost input state, and the tiny input state's sensitivity
output. -/
theorem zero_total_guards_witness :
    ((calculatePhaseBreakdown [sampleLineItem] 0).getD 0 dummyPhaseSummary).percentOfTotal = 0
    ∧ ((calculateCategoryBreakdown [sampleLineItem] 0).getD 0
        dummyCategorySummary).percentOfTotal = 0
    ∧ (calculateClosureCosts zeroCostInputs).monitoringCostShare = 0
    ∧ ((calculateSensitivity smallInputs 10).getD 0 emptySensitivityResult).baseValue ≠ 0 :=
  ⟨zero_total_guards.1 [sampleLineItem] _ (by decide),
   zero_total_guards.2.1 [sampleLineItem] _ (by decide),
   zero_total_guards.2.2.1 zeroCostInputs (by decide),
   zero_total_guards.2.2.2 smallInputs 10 _ (by decide)⟩

/-- C3 (counterexample to the claim as stated): a valid input state with a
strictly positive discount rate (1%) whose escalation rate (10%) exceeds
it, for which the discounted total strictly exceeds the nominal total.
Discounting divides the *escalated* cost, so `discountRatePercent > 0`
alone does not give `totalDiscountedCost ≤ totalNominalCost`. -/
theorem discounting_bound_counterexample :
    ValidInputs smallInputs
    ∧ 0 < smallInputs.financialParams.discountRatePercent
    ∧ (calculateClosureCosts smallInputs).totalNominalCost
        < (calculateClosureCosts smallInputs).totalDiscountedCost :=
  ⟨validInputs_small, by decide, by decide⟩

/-- C3 (amended): for every valid input state, whenever
`escalationRatePercent ≤ discountRatePercent` the discounted total is at
most the nominal total; and when both rates are 0 the two totals are equal
exactly. -/
theorem discounted_le_nominal (inputs : InputState) (hv : ValidInputs inputs) :
    (inputs.financialParams.escalationRatePercent ≤
        inputs.financialParams.discountRatePercent →
      (calculateClosureCosts inputs).totalDiscountedCost ≤
        (calculateClosureCosts inputs).totalNominalCost)
    ∧ (inputs.financialParams.escalationRatePercent = 0 →
      inputs.financialParams.discountRatePercent = 0 →
      (calculateClosureCosts inputs).totalDiscountedCost =
        (calculateClosureCosts inputs).totalNominalCost) := by
  have hn : ∀ j, 0 ≤ yearNominal (allLineItems inputs) inputs.phaseDurations
      (calculateTotalDuration inputs.phaseDurations) j :=
    fun j => yearNominal_nonneg _ _ _ _ (allLineItems_subtotal_nonneg inputs hv)
  have he0 : 0 ≤ inputs.financialParams.escalationRatePercent :=
    hv.escalationRatePercent_lb
  constructor
  · intro her
    rw [closure_totalDiscounted, closure_totalNominal,
      ← sum_yearNominal (allLineItems inputs) inputs.phaseDurations]
    apply Finset.sum_le_sum
    intro j _
    have hpow : (1 + inputs.financialParams.escalationRatePercent / 100) ^ j ≤
        (1 + inputs.financialParams.discountRatePercent / 100) ^ j :=
      pow_le_pow_left₀ (by linarith) (by linarith) j
    have hdpos : (0 : ℚ) < (1 + inputs.financialParams.discountRatePercent / 100) ^ j := by
      have := hv.discountRatePercent_lb
      positivity
    rw [div_le_iff₀ hdpos]
    calc yearNominal (allLineItems inputs) inputs.phaseDurations
          (calculateTotalDuration inputs.phaseDurations) j *
            (1 + inputs.financialParams.escalationRatePercent / 100) ^ j
        ≤ yearNominal (allLineItems inputs) inputs.phaseDurations
            (calculateTotalDuration inputs.phaseDurations) j *
              (1 + inputs.financialParams.discountRatePercent / 100) ^ j :=
          mul_le_mul_of_nonneg_left hpow (hn j)
      _ = _ := by ring
  · intro he hr
    rw [closure_totalDiscounted, closure_totalNominal,
      ← sum_yearNominal (allLineItems inputs) inputs.phaseDurations]
    apply Finset.sum_congr rfl
    intro j _
    rw [he, hr]
    norm_num

/-- Witness for the amended C3 at the repository's default input state
(escalation 3% ≤ discount 7%). -/
theorem discounted_le_nominal_witness :
    (calculateClosureCosts defaultInputState).totalDiscountedCost ≤
      (calculateClosureCosts defaultInputState).totalNominalCost :=
  (discounted_le_nominal defaultInputState validInputs_default).1 (by decide)

/-- C4 (counterexample to the claim as stated): with every phase duration
zero (a valid assignment), all cost falls in year 0, where the discount
factor is `(1+r)^0 = 1`; raising the discount rate from 10% to 20% leaves
`totalDiscountedCost` unchanged, so the decrease is not strict. -/
theorem discount_rate_strict_counterexample :
    ValidInputs (setDiscountRate flatInputs 10)
    ∧ ValidInputs (setDiscountRate flatInputs 20)
    ∧ (10 : ℚ) < 20
    ∧ (calculateClosureCosts (setDiscountRate flatInputs 10)).totalDiscountedCost
        = (calculateClosureCosts (setDiscountRate flatInputs 20)).totalDiscountedCost := by
  refine ⟨?_, ?_, by norm_num, by decide⟩ <;> constructor <;> decide

lemma allLineItems_setDiscountRate (i : InputState) (r : ℚ) :
    allLineItems (setDiscountRate i r) = allLineItems i := rfl

/-- C4 (amended): for every valid input state, raising
`discountRatePercent` (from a non-negative value) weakly decreases
`totalDiscountedCost`; the decrease need not be strict (all cost can sit
in year 0). -/
theorem discounted_antitone_in_rate (inputs : InputState) (hv : ValidInputs inputs)
    (r1 r2 : ℚ) (h0 : 0 ≤ r1) (h12 : r1 ≤ r2) :
    (calculateClosureCosts (setDiscountRate inputs r2)).totalDiscountedCost ≤
      (calculateClosureCosts (setDiscountRate inputs r1)).totalDiscountedCost := by
  have hn : ∀ j, 0 ≤ yearNominal (allLineItems inputs) inputs.phaseDurations
      (calculateTotalDuration inputs.phaseDurations) j :=
    fun j => yearNominal_nonneg _ _ _ _ (allLineItems_subtotal_nonneg inputs hv)
  have he0 : 0 ≤ inputs.financialParams.escalationRatePercent :=
    hv.escalationRatePercent_lb
  rw [closure_totalDiscounted, closure_totalDiscounted, allLineItems_setDiscountRate,
    allLineItems_setDiscountRate]
  simp only [setDiscountRate]
  apply Finset.sum_le_sum
  intro j _
  have hnum : 0 ≤ yearNominal (allLineItems inputs) inputs.phaseDurations
      (calculateTotalDuration inputs.phaseDurations) j *
        (1 + inputs.financialParams.escalationRatePercent / 100) ^ j :=
    mul_nonneg (hn j) (pow_nonneg (by linarith) j)
  have h1pos : (0 : ℚ) < (1 + r1 / 100) ^ j := pow_pos (by linarith) j
  have h2pos : (0 : ℚ) < (1 + r2 / 100) ^ j := pow_pos (by linarith) j
  rw [div_le_div_iff₀ h2pos h1pos]
  exact mul_le_mul_of_nonneg_left
    (pow_le_pow_left₀ (by linarith) (by linarith) j) hnum

/-- Witness for the amended C4 at the default input state, raising the
discount rate from 7% to 15%. -/
theorem discounted_antitone_in_rate_witness :
    (calculateClosureCosts (setDiscountRate defaultInputState 15)).totalDiscountedCost ≤
      (calculateClosureCosts (setDiscountRate defaultInputState 7)).totalDiscountedCost :=
  discounted_antitone_in_rate defaultInputState validInputs_default 7 15
    (by norm_num) (by norm_num)

/-- C8: for every sensitivity result returned by `calculateSensitivity`
with the default ±10% variation on a valid input state,
`lowTotalCost ≤ highTotalCost`. -/
theorem sensitivity_low_le_high (inputs : InputState) (hv : ValidInputs inputs) :
    ∀ r ∈ calculateSensitivity inputs 10, r.lowTotalCost ≤ r.highTotalCost := by
  intro r hr
  simp only [calculateSensitivity, mem_sortDescBy] at hr
  obtain ⟨driver, hd, hsome⟩ := List.mem_filterMap.mp hr
  simp only [SENSITIVITY_DRIVERS, List.mem_cons, List.not_mem_nil, or_false] at hd
  rcases hd with rfl | rfl | rfl | rfl | rfl | rfl | rfl | rfl
  · -- disturbed area
    dsimp only at hsome
    by_cases h0 : inputs.quantities.disturbedAreaHa = 0
    · rw [if_pos h0] at hsome
      exact absurd hsome (by simp)
    · rw [if_neg h0] at hsome
      obtain rfl := Option.some.inj hsome
      dsimp only
      have hbase : 0 < inputs.quantities.disturbedAreaHa :=
        lt_of_le_of_ne hv.disturbedAreaHa_lb (Ne.symm h0)
      exact sensTotal_mono_disturbedArea inputs hv _ _ (by linarith) (by linarith)
  · -- earthworks rate
    dsimp only at hsome
    by_cases h0 : inputs.unitRates.earthworksPerM3 = 0
    · rw [if_pos h0] at hsome
      exact absurd hsome (by simp)
    · rw [if_neg h0] at hsome
      obtain rfl := Option.some.inj hsome
      dsimp only
      have hbase : 0 < inputs.unitRates.earthworksPerM3 :=
        lt_of_le_of_ne hv.earthworksPerM3_lb (Ne.symm h0)
      exact sensTotal_mono_earthworksRate inputs hv _ _ (by linarith) (by linarith)
  · -- TSF area
    dsimp only at hsome
    by_cases h0 : inputs.quantities.tsfAreaHa = 0
    · rw [if_pos h0] at hsome
      exact absurd hsome (by simp)
    · rw [if_neg h0] at hsome
      obtain rfl := Option.some.inj hsome
      dsimp only
      have hbase : 0 < inputs.quantities.tsfAreaHa :=
        lt_of_le_of_ne hv.tsfAreaHa_lb (Ne.symm h0)
      exact sensTotal_mono_tsfArea inputs hv _ _ (by linarith) (by linarith)
  · -- TSF cover thickness
    dsimp only at hsome
    by_cases h0 : inputs.quantities.tsfCoverThicknessM = 0
    · rw [if_pos h0] at hsome
      exact absurd hsome (by simp)
    · rw [if_neg h0] at hsome
      obtain rfl := Option.some.inj hsome
      dsimp only
      have hbase : 0 < inputs.quantities.tsfCoverThicknessM :=
        lt_of_le_of_ne hv.tsfCoverThicknessM_lb (Ne.symm h0)
      exact sensTotal_mono_tsfThickness inputs hv _ _ (by linarith) (by linarith)
  · -- water treatment duration
    dsimp only at hsome
    by_cases h0 : inputs.quantities.waterTreatmentDurationYears = 0
    · rw [if_pos h0] at hsome
      exact absurd hsome (by simp)
    · rw [if_neg h0] at hsome
      obtain rfl := Option.some.inj hsome
      dsimp only
      have hbase : 0 < inputs.quantities.waterTreatmentDurationYears :=
        lt_of_le_of_ne hv.waterTreatmentDurationYears_lb (Ne.symm h0)
      exact sensTotal_mono_waterDuration inputs hv _ _ (by linarith) (by linarith)
  · -- contingency percent
    dsimp only at hsome
    by_cases h0 : inputs.indirectRates.contingencyPercent = 0
    · rw [if_pos h0] at hsome
      exact absurd hsome (by simp)
    · rw [if_neg h0] at hsome
      obtain rfl := Option.some.inj hsome
      dsimp only
      have hbase : 0 < inputs.indirectRates.contingencyPercent :=
        lt_of_le_of_ne hv.contingencyPercent_lb (Ne.symm h0)
      exact sensTotal_mono_contingency inputs hv _ _ (by linarith) (by linarith)
  · -- discount rate: the nominal total does not depend on it
    dsimp only at hsome
    by_cases h0 : inputs.financialParams.discountRatePercent = 0
    · rw [if_pos h0] at hsome
      exact absurd hsome (by simp)
    · rw [if_neg h0] at hsome
      obtain rfl := Option.some.inj hsome
      exact le_of_eq rfl
  · -- revegetation rate
    dsimp only at hsome
    by_cases h0 : inputs.unitRates.revegetationPerHa = 0
    · rw [if_pos h0] at hsome
      exact absurd hsome (by simp)
    · rw [if_neg h0] at hsome
      obtain rfl := Option.some.inj hsome
      dsimp only
      have hbase : 0 < inputs.unitRates.revegetationPerHa :=
        lt_of_le_of_ne hv.revegetationPerHa_lb (Ne.symm h0)
      exact sensTotal_mono_revegRate inputs hv _ _ (by linarith) (by linarith)

/-- Witness for C8: the first sensitivity result of the tiny valid input
state (its only nonzero driver is the discount rate). -/
theorem sensitivity_low_le_high_witness :
    ((calculateSensitivity smallInputs 10).getD 0 emptySensitivityResult).lowTotalCost ≤
      ((calculateSensitivity smallInputs 10).getD 0 emptySensitivityResult).highTotalCost :=
  sensitivity_low_le_high smallInputs validInputs_small _ (by decide)

end MineClosure
